import Mathlib

/-!
Verification development for the `arch-cleaner` storage agent
(scan → persist → analyze → recommend → execute pipeline).

The Python sources are shallowly embedded as executable Lean
definitions.  Modelling conventions, used consistently below:

* `str` paths (`pathlib.Path` values, always handled via `str(...)` /
  `Path(...)` on ASCII absolute paths in the relevant code paths) are
  modelled as `String`; `Path(s)` / `str(p)` round-trips are the
  identity for such paths.
* Python `float` timestamps and confidence scores are modelled as `ℚ`.
  Every concrete computation appearing in a theorem below is exact in
  both IEEE doubles and `ℚ` (small integers, halves and tenths), so
  the idealisation does not change any verdict.
* Python `int` is modelled as `Int` (it is unbounded).
* Byte strings are `List Nat` (byte values); `.encode()` of the ASCII
  strings used by the program is `String.toList.map Char.toNat`.
* Fallible operations are modelled with `Option` / `Except`; external
  subprocesses are modelled by an oracle `List String → CmdResult`
  (the argv list determines the observed `CompletedProcess`), and the
  list of spawned commands is recorded in the world state.
-/

namespace ArchCleaner

/-! ## SHA-1 (`hashlib.sha1`), used by the suggestion identity scheme

A byte-level implementation of FIPS 180 SHA-1 over `List Nat`,
with 32-bit words as `Nat` reduced `% 2^32`. -/

/-- 2^32, the word modulus. -/
def M32 : Nat := 4294967296

/-- Rotate a 32-bit word (a `Nat < 2^32`) left by `n` bits. -/
def rotl32 (n x : Nat) : Nat :=
  ((x <<< n) % M32) ||| (x >>> (32 - n))

/-- SHA-1 round function `f_t(b,c,d)`. -/
def sha1F (t b c d : Nat) : Nat :=
  if t < 20 then (b &&& c) ||| ((b ^^^ (M32 - 1)) &&& d)
  else if t < 40 then b ^^^ c ^^^ d
  else if t < 60 then (b &&& c) ||| (b &&& d) ||| (c &&& d)
  else b ^^^ c ^^^ d

/-- SHA-1 round constant `K_t`. -/
def sha1K (t : Nat) : Nat :=
  if t < 20 then 0x5A827999
  else if t < 40 then 0x6ED9EBA1
  else if t < 60 then 0x8F1BBCDC
  else 0xCA62C1D6

/-- Intermediate hash state (five 32-bit words). -/
structure Sha1St where
  a : Nat
  b : Nat
  c : Nat
  d : Nat
  e : Nat
deriving DecidableEq, Repr

/-- Initial SHA-1 hash value. -/
def sha1Init : Sha1St :=
  ⟨0x67452301, 0xEFCDAB89, 0x98BADCFE, 0x10325476, 0xC3D2E1F0⟩

/-- Extend the 16-word message schedule with `fuel` further words
(`w[i] = rotl1 (w[i-3] xor w[i-8] xor w[i-14] xor w[i-16])`). -/
def sha1Extend : Nat → Array Nat → Array Nat
  | 0, w => w
  | fuel + 1, w =>
    let i := w.size
    let x := rotl32 1 ((w.getD (i - 3) 0) ^^^ (w.getD (i - 8) 0) ^^^
                       (w.getD (i - 14) 0) ^^^ (w.getD (i - 16) 0))
    sha1Extend fuel (w.push x)

/-- One SHA-1 round at index `t` with schedule word `w`. -/
def sha1Round (t : Nat) (s : Sha1St) (w : Nat) : Sha1St :=
  let temp := (rotl32 5 s.a + sha1F t s.b s.c s.d + s.e + sha1K t + w) % M32
  ⟨temp, s.a, rotl32 30 s.b, s.c, s.d⟩

/-- Run rounds `t, t+1, …, 79` (with `fuel = 80 - t`). -/
def sha1Rounds : Nat → Nat → Sha1St → Array Nat → Sha1St
  | 0, _, s, _ => s
  | fuel + 1, t, s, w => sha1Rounds fuel (t + 1) (sha1Round t s (w.getD t 0)) w

/-- Group a byte list into big-endian 32-bit words. -/
def bytesToWords : List Nat → List Nat
  | b0 :: b1 :: b2 :: b3 :: rest =>
    (((b0 * 256 + b1) * 256 + b2) * 256 + b3) :: bytesToWords rest
  | _ => []

/-- Split a word list into 16-word blocks (structural recursion on a
fuel bound so that the definition reduces inside the kernel). -/
def wordBlocksAux : Nat → List Nat → List (Array Nat)
  | 0, _ => []
  | _, [] => []
  | fuel + 1, ws => (ws.take 16).toArray :: wordBlocksAux fuel (ws.drop 16)

/-- Split a word list into 16-word blocks. -/
def wordBlocks (ws : List Nat) : List (Array Nat) :=
  wordBlocksAux ws.length ws

/-- Big-endian bytes of `n`, `width` bytes wide. -/
def beBytes (width n : Nat) : List Nat :=
  (List.range width).map (fun i => (n >>> (8 * (width - 1 - i))) &&& 255)

/-- SHA-1 padding: append `0x80`, zeros, and the 64-bit bit length. -/
def sha1Pad (msg : List Nat) : List Nat :=
  let len := msg.length
  let zeros := (64 - ((len + 9) % 64)) % 64
  msg ++ [0x80] ++ List.replicate zeros 0 ++ beBytes 8 (len * 8)

/-- Compress one 16-word block into the state. -/
def sha1Block (s : Sha1St) (block : Array Nat) : Sha1St :=
  let w := sha1Extend 64 block
  let r := sha1Rounds 80 0 s w
  ⟨(s.a + r.a) % M32, (s.b + r.b) % M32, (s.c + r.c) % M32,
   (s.d + r.d) % M32, (s.e + r.e) % M32⟩

/-- The SHA-1 digest state of a byte message. -/
def sha1 (msg : List Nat) : Sha1St :=
  (wordBlocks (bytesToWords (sha1Pad msg))).foldl sha1Block sha1Init

/-- Lower-case hex digit. -/
def hexChar (n : Nat) : Char :=
  if n < 10 then Char.ofNat (48 + n) else Char.ofNat (87 + n)

/-- Eight lower-case hex characters of a 32-bit word, big-endian. -/
def wordHex (x : Nat) : List Char :=
  (List.range 8).map (fun i => hexChar ((x >>> (4 * (7 - i))) &&& 15))

/-- Embeds `hashlib.sha1(msg).hexdigest()`. -/
def sha1Hexdigest (msg : List Nat) : String :=
  let s := sha1 msg
  String.mk (wordHex s.a ++ wordHex s.b ++ wordHex s.c ++ wordHex s.d ++ wordHex s.e)

/-- Embeds `s.encode()` for the ASCII strings this program hashes. -/
def asciiBytes (s : String) : List Nat :=
  s.toList.map Char.toNat

set_option maxRecDepth 1000000
set_option maxHeartbeats 4000000

/-- Known-answer check of the SHA-1 embedding (FIPS 180 test vector). -/
theorem sha1_known_answer :
    sha1Hexdigest (asciiBytes "abc") = "a9993e364706816aba3e25717850c26c9cd0d89d" := by
  decide

/-! ## `utils/helpers.py`: size / duration parsing

String primitives (`.strip()`, `.upper()`, `.lower()`, `str <`,
`Path.name`, `.endswith`) are given as character-list computations so
every definition reduces inside the kernel. -/

/-- ASCII upper-casing of one character (`str.upper`). -/
def upperChar (c : Char) : Char :=
  if 97 ≤ c.toNat ∧ c.toNat ≤ 122 then Char.ofNat (c.toNat - 32) else c

/-- ASCII lower-casing of one character (`str.lower`). -/
def lowerChar (c : Char) : Char :=
  if 65 ≤ c.toNat ∧ c.toNat ≤ 90 then Char.ofNat (c.toNat + 32) else c

/-- Embeds `str.strip()` on a character list. -/
def stripChars (cs : List Char) : List Char :=
  ((cs.dropWhile (·.isWhitespace)).reverse.dropWhile (·.isWhitespace)).reverse

/-- Embeds `str.strip()`. -/
def pyStrip (s : String) : String :=
  String.mk (stripChars s.toList)

/-- Embeds `str.lower()`. -/
def pyLower (s : String) : String :=
  String.mk (s.toList.map lowerChar)

/-- Code-point lexicographic `≤` on character lists (Python `str`
comparison). -/
def charListLe : List Char → List Char → Bool
  | [], _ => true
  | _ :: _, [] => false
  | a :: as, b :: bs =>
    if a.toNat < b.toNat then true
    else if b.toNat < a.toNat then false
    else charListLe as bs

/-- Python `str` `≤`. -/
def pyStrLe (a b : String) : Bool :=
  charListLe a.toList b.toList

/-- Embeds `cs.endswith(suffix)` on character lists. -/
def endsWithChars (cs suffix : List Char) : Bool :=
  decide (cs.drop (cs.length - suffix.length) = suffix) && decide (suffix.length ≤ cs.length)

/-- Python `int(q)`: truncation toward zero (`Int.tdiv` is Lean's
truncated division and `q.num / q.den` is in lowest terms). -/
def pyInt (q : ℚ) : Int :=
  q.num.tdiv (q.den : Int)

/-- Numeric value of a run of decimal digits. -/
def digitsVal (cs : List Char) : Nat :=
  cs.foldl (fun a c => 10 * a + (c.toNat - 48)) 0

/-- Match the regex fragment `^(\d+(\.\d+)?)` against `cs`: returns the
numeric value (exact decimal), whether a fraction part was present, and
the remaining characters.  `none` when there is no leading digit or a
dot is not followed by a digit. -/
def takeNumber (cs : List Char) : Option (ℚ × Bool × List Char) :=
  let ds := cs.takeWhile (·.isDigit)
  if ds = [] then none
  else
    let rest := cs.drop ds.length
    match rest with
    | '.' :: rest' =>
      let fs := rest'.takeWhile (·.isDigit)
      if fs = [] then none
      else
        some ((digitsVal ds : ℚ) + (digitsVal fs : ℚ) / ((10 : ℚ) ^ fs.length),
              true, rest'.drop fs.length)
    | _ => some ((digitsVal ds : ℚ), false, rest)

/-- Embeds `SIZE_UNITS`. -/
def SIZE_UNITS (c : Char) : Nat :=
  if c = 'B' then 1
  else if c = 'K' then 1024
  else if c = 'M' then 1024 ^ 2
  else if c = 'G' then 1024 ^ 3
  else if c = 'T' then 1024 ^ 4
  else 1

/-- Match the regex tail `([BKMGT])?B?$`: the whole remainder must be
consumed; returns the optional unit group. -/
def sizeUnitTail : List Char → Option (Option Char)
  | [] => some none
  | [c] => if "BKMGT".toList.contains c then some (some c) else none
  | [c, 'B'] => if "BKMGT".toList.contains c then some (some c) else none
  | _ => none

/-- Embeds `helpers.parse_size`: parses `"500M"`, `"2G"`, `"1024"` … into bytes
(`None` on failure).  Numeric literals are read as exact decimals. -/
def parse_size (size_str : String) : Option Int :=
  let cs := (stripChars size_str.toList).map upperChar
  let regexResult : Option (ℚ × Option Char × Bool) :=
    match takeNumber cs with
    | none => none
    | some (v, hasDot, rest) =>
      match sizeUnitTail (rest.dropWhile (·.isWhitespace)) with
      | none => none
      | some u => some (v, u, hasDot)
  match regexResult with
  | none =>
    -- fallback: `if size_str.isdigit(): return int(size_str)`
    if cs ≠ [] ∧ cs.all (·.isDigit) then some (digitsVal cs : Int) else none
  | some (v, unit, hasDot) =>
    match unit with
    | some c => some (pyInt (v * (SIZE_UNITS c : ℚ)))
    | none => if hasDot then none else some (pyInt v)

/-- Embeds `TIME_UNITS`. -/
def TIME_UNITS (u : String) : Option Nat :=
  if u = "s" then some 1
  else if u = "m" then some 60
  else if u = "h" then some 3600
  else if u = "d" then some 86400
  else if u = "w" then some (86400 * 7)
  else if u = "month" then some (86400 * 30)
  else if u = "y" then some (86400 * 365)
  else none

/-- Match the regex tail `([smhdw]|month|y)?$`. -/
def durationUnitTail : List Char → Option (Option String)
  | [] => some none
  | [c] => if "smhdwy".toList.contains c then some (some (String.mk [c])) else none
  | cs => if cs = "month".toList then some (some "month") else none

/-- Embeds `helpers.parse_duration`: parses `"3m"`, `"2w"`, `"1y"` … into
seconds (`None` on failure). -/
def parse_duration (duration_str : String) : Option Int :=
  let cs := (stripChars duration_str.toList).map lowerChar
  match takeNumber cs with
  | none => none
  | some (v, _, rest) =>
    match durationUnitTail (rest.dropWhile (·.isWhitespace)) with
    | none => none
    | some u =>
      let unit := u.getD "s"
      match TIME_UNITS unit with
      | none => none
      | some m => some (pyInt (v * (m : ℚ)))

/-- One-decimal rendering of a nonnegative exact value, modelling
Python `f"{x:.1f}"` (rounding half up; every value formatted by the
theorems below is exact, where the two renderings agree). -/
def formatOneDec (q : ℚ) : String :=
  let t := pyInt (q * 10 + 1 / 2)
  toString (t / 10) ++ "." ++ toString (t % 10)

/-- Embeds `helpers.human_readable_size`. -/
def human_readable_size (size_bytes : Int) : String :=
  if size_bytes < 0 then "N/A"
  else if size_bytes < 1024 then toString size_bytes ++ " B"
  else if size_bytes < 1024 ^ 2 then formatOneDec ((size_bytes : ℚ) / 1024) ++ " KB"
  else if size_bytes < 1024 ^ 3 then formatOneDec ((size_bytes : ℚ) / 1024 ^ 2) ++ " MB"
  else if size_bytes < 1024 ^ 4 then formatOneDec ((size_bytes : ℚ) / 1024 ^ 3) ++ " GB"
  else formatOneDec ((size_bytes : ℚ) / 1024 ^ 4) ++ " TB"

/-- The characters after the last `'/'`. -/
def lastComponent (acc : List Char) : List Char → List Char
  | [] => acc
  | '/' :: rest => lastComponent [] rest
  | c :: rest => lastComponent (acc ++ [c]) rest

/-- Embeds `pathlib.Path(p).name`: the final path component. -/
def pathName (p : String) : String :=
  String.mk (lastComponent [] p.toList)

/-! ## `core/models.py`: the data model -/

/-- Embeds `models.ScannedItem` (`extra_info` holds the string-valued keys the
program actually stores: `'hash'` and `'source'`). -/
structure ScannedItem where
  path : String
  size_bytes : Int
  last_accessed : ℚ
  last_modified : ℚ
  item_type : String
  extra_info : List (String × String)
deriving DecidableEq, Repr

/-- Embeds `models.PackageInfo`. -/
structure PackageInfo where
  name : String
  version : String
  size_bytes : Int
  description : Option String
  install_date : Option ℚ
  last_used : Option ℚ
  is_orphan : Bool
  is_dependency : Bool
  required_by : List String
  optional_for : List String
deriving DecidableEq, Repr

/-- Embeds `models.DuplicateSet`. -/
structure DuplicateSet where
  file_hash : String
  paths : List String
  size_bytes : Int
  total_size_bytes : Int
deriving DecidableEq, Repr

/-- The dynamically-typed `Suggestion.data` payload
(`ScannedItem | PackageInfo | list[PackageInfo] | DuplicateSet |
list[Path] | dict | None`), as a closed sum. -/
inductive SuggData where
  | item (i : ScannedItem)
  | pkg (p : PackageInfo)
  | pkgList (ps : List PackageInfo)
  | dupSet (d : DuplicateSet)
  | pathList (ps : List String)
  | vacuumParams (target_size : Option Int) (target_age : Option Int)
  | nothing
deriving DecidableEq, Repr

/-- Embeds `models.Suggestion`.  `details` is `Option String` because the
deserialiser can materialise Python `None` there. -/
structure Suggestion where
  id : String
  suggestion_type : String
  description : String
  details : Option String
  estimated_size_bytes : Int
  confidence : ℚ
  rationale : String
  data : SuggData
deriving DecidableEq, Repr

/-- Embeds `models.ActionFeedback`: exactly the four fields the dataclass
declares (`suggestion_type` / `item_details` are *not* among them). -/
structure ActionFeedback where
  suggestion_id : String
  action_taken : String
  timestamp : ℚ
  user_comment : Option String
deriving DecidableEq, Repr

/-- Embeds `models.ActionResult`. -/
structure ActionResult where
  suggestion : Suggestion
  success : Bool
  message : String
  bytes_freed : Int
  dry_run : Bool
deriving DecidableEq, Repr

/-! ## Stable sorting (`list.sort(key=…)`)

Python's `list.sort` is a stable sort; the stable order is uniquely
determined by the `before` relation, so a stable insertion sort is
extensionally the same function (and, unlike well-founded merge sort,
it reduces inside the kernel). -/

/-- Insert `x` after every element `y` with `before y x`. -/
def insertOrdered (before : α → α → Bool) (x : α) : List α → List α
  | [] => [x]
  | y :: ys => if before y x then y :: insertOrdered before x ys else x :: y :: ys

/-- Stable sort: `before y x = true` keeps `y` in front of a
later-arriving `x`. -/
def stableSort (before : α → α → Bool) (l : List α) : List α :=
  l.foldl (fun acc x => insertOrdered before x acc) []

/-! ## `modules/analysis.py`: threshold classification -/

/-- Embeds `AnalysisEngine.__init__`: `old_file_seconds` with the 90-day
fallback for unparsable threshold strings. -/
def analysisOldFileSeconds (old_file_threshold_str : String) : Int :=
  (parse_duration old_file_threshold_str).getD (90 * 86400)

/-- Embeds `AnalysisEngine.__init__`: `large_file_bytes` with the 500 MB
fallback. -/
def analysisLargeFileBytes (large_file_threshold_str : String) : Int :=
  (parse_size large_file_threshold_str).getD (500 * 1024 * 1024)

/-- Embeds `AnalysisEngine._find_old_files`: keep files whose `last_accessed`
is strictly below `now - old_file_seconds`. -/
def find_old_files (old_file_seconds : Option Int) (now : ℚ) (files : List ScannedItem) :
    List ScannedItem :=
  match old_file_seconds with
  | none => []
  | some secs => files.filter (fun f => f.last_accessed < now - (secs : ℚ))

/-- Embeds `AnalysisEngine._find_large_files`: keep files with
`size_bytes ≥ large_file_bytes`, sorted descending by size (stable). -/
def find_large_files (large_file_bytes : Option Int) (files : List ScannedItem) :
    List ScannedItem :=
  match large_file_bytes with
  | none => []
  | some b =>
    stableSort (fun x y => decide (y.size_bytes ≤ x.size_bytes))
      (files.filter (fun f => b ≤ f.size_bytes))

/-! ## `modules/recommendation.py`: the recommendation engine -/

def SUGGESTION_OLD_FILE : String := "OLD_FILE"
def SUGGESTION_LARGE_FILE : String := "LARGE_FILE"
def SUGGESTION_ORPHAN_PACKAGE : String := "ORPHAN_PACKAGE"
def SUGGESTION_DUPLICATE_SET : String := "DUPLICATE_SET"
def SUGGESTION_PACMAN_CACHE : String := "PACMAN_CACHE"
def SUGGESTION_JOURNAL_LOG : String := "JOURNAL_LOG"

/-- Embeds `RecommendationEngine._generate_suggestion_id`: the first 10 hex
characters of `SHA-1(type ‖ details)`. -/
def generate_suggestion_id (suggestion_type details : String) : String :=
  (sha1Hexdigest (asciiBytes suggestion_type ++ asciiBytes details)).take 10

-- Keep the hash opaque during unification (concrete instances are
-- evaluated by the kernel, which reduces it fine).
attribute [irreducible] generate_suggestion_id

/-- Embeds `RecommendationEngine._generate_old_file_suggestions`.  `now` is
`time.time()` and `ctime` renders `time.ctime` (an external
locale-formatting collaborator). -/
def generate_old_file_suggestions (now : ℚ) (ctime : ℚ → String)
    (old_files : List ScannedItem) : List Suggestion :=
  old_files.map (fun item =>
    let age_days : Int := pyInt ((now - item.last_accessed) / 86400)
    let size_hr := human_readable_size item.size_bytes
    let details := item.path
    let desc := "Remove old file not accessed in " ++ toString age_days ++
                " days (" ++ size_hr ++ ")"
    let rationale := "File last accessed on " ++ ctime item.last_accessed ++ "."
    let confidence : ℚ := min (1/2 + ((age_days : ℚ) / 365) * (2/5)) (9/10)
    { id := generate_suggestion_id SUGGESTION_OLD_FILE details
      suggestion_type := SUGGESTION_OLD_FILE
      description := desc
      details := some details
      estimated_size_bytes := item.size_bytes
      confidence := confidence
      rationale := rationale
      data := .item item })

/-- Embeds `RecommendationEngine._generate_large_file_suggestions`. -/
def generate_large_file_suggestions (ctime : ℚ → String)
    (large_files : List ScannedItem) : List Suggestion :=
  large_files.map (fun item =>
    let size_hr := human_readable_size item.size_bytes
    let details := item.path
    let desc := "Review large file (" ++ size_hr ++ ")"
    let rationale := "File size (" ++ size_hr ++ ") exceeds threshold. Last accessed: " ++
                     ctime item.last_accessed ++ "."
    { id := generate_suggestion_id SUGGESTION_LARGE_FILE details
      suggestion_type := SUGGESTION_LARGE_FILE
      description := desc
      details := some details
      estimated_size_bytes := item.size_bytes
      confidence := 3/10
      rationale := rationale
      data := .item item })

/-- Embeds `RecommendationEngine._generate_orphan_package_suggestions`: one
aggregate suggestion; note that the id is generated from the fixed
string `"all_orphans"`, not from `details`. -/
def generate_orphan_package_suggestions (orphans : List PackageInfo) : List Suggestion :=
  if orphans = [] then []
  else
    let total_size := (orphans.map (·.size_bytes)).sum
    let details := String.intercalate ", "
      (stableSort (fun a b => pyStrLe a b) (orphans.map (·.name)))
    let size_hr := human_readable_size total_size
    let desc := "Remove " ++ toString orphans.length ++ " orphan packages (" ++ size_hr ++ ")"
    [{ id := generate_suggestion_id SUGGESTION_ORPHAN_PACKAGE "all_orphans"
       suggestion_type := SUGGESTION_ORPHAN_PACKAGE
       description := desc
       details := some details
       estimated_size_bytes := total_size
       confidence := 4/5
       rationale := "These packages were installed as dependencies but are no longer required by any installed package."
       data := .pkgList orphans }]

/-- Embeds `RecommendationEngine._generate_duplicate_set_suggestions`: one
suggestion per set with a positive saving; the id is generated from the
set's `file_hash`, not from `details`. -/
def generate_duplicate_set_suggestions (duplicate_sets : List DuplicateSet) :
    List Suggestion :=
  duplicate_sets.filterMap (fun dup_set =>
    let num_files := dup_set.paths.length
    let potential_saving : Int := ((num_files : Int) - 1) * dup_set.size_bytes
    if potential_saving ≤ 0 then none
    else
      let size_hr := human_readable_size dup_set.size_bytes
      let total_size_hr := human_readable_size potential_saving
      let preview0 := String.intercalate ", " ((dup_set.paths.take 3).map pathName)
      let paths_preview := if 3 < num_files then preview0 ++ ", ..." else preview0
      let details := toString num_files ++ " files (" ++ size_hr ++ " each). Hash: " ++
                     dup_set.file_hash.take 8 ++ "... Locations: " ++ paths_preview
      let desc := "Remove " ++ toString ((num_files : Int) - 1) ++
                  " duplicate files (Save " ++ total_size_hr ++ ")"
      some { id := generate_suggestion_id SUGGESTION_DUPLICATE_SET dup_set.file_hash
             suggestion_type := SUGGESTION_DUPLICATE_SET
             description := desc
             details := some details
             estimated_size_bytes := potential_saving
             confidence := 7/10
             rationale := "Found " ++ toString num_files ++
               " identical files based on content hash. Keeping one copy is usually sufficient."
             data := .dupSet dup_set })

/-- Tail of `_parse_pkg_filename`'s regex after the second separator:
`(\d+)-(.*?)` — a maximal digit run, a dash, and the architecture. -/
def pkgRelArch (r3 : List Char) : Option (String × String) :=
  let ds := r3.takeWhile (·.isDigit)
  if ds = [] then none
  else
    match r3.drop ds.length with
    | '-' :: arch => some (String.mk ds, String.mk arch)
    | _ => none

/-- Search, in lazy-group order, for the version split of
`-(\d.*?)-(\d+)-(.*?)$` at the start of `r1`. -/
def pkgVersionSplit (r1 : List Char) : Option (String × String) :=
  if (r1.getD 0 ' ').isDigit then
    (List.range r1.length).findSome? (fun jm =>
      let j := jm + 1
      match r1.drop j with
      | '-' :: r3 =>
        match pkgRelArch r3 with
        | some (rel, arch) => some (String.mk (r1.take j) ++ "-" ++ rel, arch)
        | none => none
      | _ => none)
  else none

/-- Embeds `RecommendationEngine._parse_pkg_filename`: matches
`^(.*?)-(\d.*?)-(\d+)-(.*?)\.pkg\.tar\.(?:zst|xz|gz|bz2)$`, returning
`(name, pkgver-pkgrel, arch)`. -/
def parse_pkg_filename (filename : String) : Option (String × String × String) :=
  let cs := filename.toList
  match [".pkg.tar.zst", ".pkg.tar.xz", ".pkg.tar.gz", ".pkg.tar.bz2"].find?
      (fun e => endsWithChars cs e.toList) with
  | none => none
  | some e =>
    let stem := cs.take (cs.length - e.length)
    (List.range stem.length).findSome? (fun i =>
      if stem.getD i ' ' = '-' then
        match pkgVersionSplit (stem.drop (i + 1)) with
        | some (ver, arch) => some (String.mk (stem.take i), ver, arch)
        | none => none
      else none)

/-- Insert a cache-file entry into the `{pkg_name: [(version, path,
size)]}` mapping, preserving Python-dict insertion order. -/
def pkgMapInsert (m : List (String × List (String × String × Int)))
    (name : String) (entry : String × String × Int) :
    List (String × List (String × String × Int)) :=
  match m with
  | [] => [(name, [entry])]
  | (k, v) :: rest =>
    if k = name then (k, v ++ [entry]) :: rest
    else (k, v) :: pkgMapInsert rest name entry

/-- Embeds `RecommendationEngine._generate_pacman_cache_suggestions`. -/
def generate_pacman_cache_suggestions (pacman_cache_keep : Int)
    (cache_files : List ScannedItem) : List Suggestion :=
  if cache_files = [] then []
  else
    let total_size := (cache_files.map (·.size_bytes)).sum
    let packages := cache_files.foldl (fun m item =>
      match parse_pkg_filename (pathName item.path) with
      | some (name, version, _arch) => pkgMapInsert m name (version, item.path, item.size_bytes)
      | none => m) []
    let keep_count := max 1 pacman_cache_keep
    let files_to_remove : List (String × Int) := packages.flatMap (fun (_, versions) =>
      let sorted := stableSort (fun x y => pyStrLe y.1 x.1) versions
      if keep_count < (sorted.length : Int) then
        (sorted.drop keep_count.toNat).map (fun (_, path, size) => (path, size))
      else [])
    if files_to_remove = [] then []
    else
      let removable_size := (files_to_remove.map (·.2)).sum
      let size_hr := human_readable_size removable_size
      let num_files := files_to_remove.length
      let details := toString num_files ++ " older package versions. Total cache size: " ++
                     human_readable_size total_size
      let desc := "Clean pacman cache: Remove " ++ toString num_files ++
                  " older versions (Save " ++ size_hr ++ ")"
      [{ id := generate_suggestion_id SUGGESTION_PACMAN_CACHE "older_versions"
         suggestion_type := SUGGESTION_PACMAN_CACHE
         description := desc
         details := some details
         estimated_size_bytes := removable_size
         confidence := 9/10
         rationale := "Keep the latest " ++ toString pacman_cache_keep ++
                      " version(s) of each package and remove older ones."
         data := .pathList (files_to_remove.map (·.1)) }]

/-- Embeds `RecommendationEngine._generate_journal_log_suggestions`. -/
def generate_journal_log_suggestions (journal_max_bytes _journal_max_seconds : Option Int)
    (journal_items : List ScannedItem) : List Suggestion :=
  match journal_items with
  | [] => []
  | journal_item :: _ =>
    let current_size := journal_item.size_bytes
    let size_hr := human_readable_size current_size
    match journal_max_bytes with
    | some m =>
      if m < current_size then
        let target_size_hr := human_readable_size m
        let estimated_saving := current_size - m
        let details := "Current size: " ++ size_hr ++ ". Target size: " ++ target_size_hr
        let desc := "Vacuum journal logs to target size (" ++ target_size_hr ++ ")"
        [{ id := generate_suggestion_id SUGGESTION_JOURNAL_LOG "vacuum_size"
           suggestion_type := SUGGESTION_JOURNAL_LOG
           description := desc
           details := some details
           estimated_size_bytes := max 0 estimated_saving
           confidence := 4/5
           rationale := "Journal size (" ++ size_hr ++ ") exceeds configured limit (" ++
                        target_size_hr ++ ")."
           data := .vacuumParams journal_max_bytes none }]
      else
        -- within limits (the age-threshold branch is an unimplemented `pass`)
        []
    | none => []

/-- Inputs of `RecommendationEngine.generate_suggestions` (the
`analysis_results` dictionary from `AnalysisEngine.analyze_all`). -/
structure AnalysisResults where
  old_files : List ScannedItem
  large_files : List ScannedItem
  orphan_packages : List PackageInfo
  duplicate_sets : List DuplicateSet
  pacman_cache_files : List ScannedItem
  journal_logs : List ScannedItem
deriving Repr

/-- Embeds `RecommendationEngine.generate_suggestions`: the six generators in
order, then a stable sort descending by `estimated_size_bytes`. -/
def generate_suggestions (now : ℚ) (ctime : ℚ → String) (pacman_cache_keep : Int)
    (journal_max_bytes journal_max_seconds : Option Int) (r : AnalysisResults) :
    List Suggestion :=
  (generate_old_file_suggestions now ctime r.old_files ++
   generate_large_file_suggestions ctime r.large_files ++
   generate_orphan_package_suggestions r.orphan_packages ++
   generate_duplicate_set_suggestions r.duplicate_sets ++
   generate_pacman_cache_suggestions pacman_cache_keep r.pacman_cache_files ++
   generate_journal_log_suggestions journal_max_bytes journal_max_seconds r.journal_logs
  ) |> stableSort (fun a b => decide (b.estimated_size_bytes ≤ a.estimated_size_bytes))

/-! ## The suggestion artifact (`controller._save_suggestions_to_file` /
`controller.get_last_suggestions`)

JSON values are modelled by `JVal`; `json.dump`/`json.load` round-trip
a `JVal` unchanged, so the artifact file is modelled as the saved
`List JVal` itself. -/

/-- A JSON value (numbers as exact rationals). -/
inductive JVal where
  | null
  | bool (b : Bool)
  | num (q : ℚ)
  | str (s : String)
  | arr (xs : List JVal)
  | obj (fields : List (String × JVal))

/-- Python truthiness of a JSON-shaped value. -/
def JVal.truthy : JVal → Bool
  | .null => false
  | .bool b => b
  | .num q => decide (q ≠ 0)
  | .str s => decide (s ≠ "")
  | .arr [] => false
  | .arr (_ :: _) => true
  | .obj [] => false
  | .obj (_ :: _) => true

/-- Embeds `d.get(k)` on a JSON object (`none` both for a missing key and on a
non-object, which the callers below guard). -/
def JVal.get? : JVal → String → Option JVal
  | .obj fs, k => (fs.find? (fun kv => kv.1 = k)).map (·.2)
  | _, _ => none

/-- Embeds `d.get(k, dflt)` narrowed to a string value. -/
def JVal.getStrD (j : JVal) (k dflt : String) : String :=
  match j.get? k with
  | some (.str s) => s
  | _ => dflt

/-- Embeds `d.get(k)` narrowed to an optional string (`None` ↦ `none`). -/
def JVal.getStr? (j : JVal) (k : String) : Option String :=
  match j.get? k with
  | some (.str s) => some s
  | _ => none

/-- Embeds `d.get(k, dflt)` narrowed to a rational value. -/
def JVal.getNumD (j : JVal) (k : String) (dflt : ℚ) : ℚ :=
  match j.get? k with
  | some (.num q) => q
  | _ => dflt

/-- Embeds `d.get(k, dflt)` narrowed to an integer value. -/
def JVal.getIntD (j : JVal) (k : String) (dflt : Int) : Int :=
  match j.get? k with
  | some (.num q) => pyInt q
  | _ => dflt

/-- Embeds `d.get(k)` narrowed to an optional rational. -/
def JVal.getNum? (j : JVal) (k : String) : Option ℚ :=
  match j.get? k with
  | some (.num q) => some q
  | _ => none

/-- Embeds `d.get(k, dflt)` narrowed to a boolean value. -/
def JVal.getBoolD (j : JVal) (k : String) (dflt : Bool) : Bool :=
  match j.get? k with
  | some (.bool b) => b
  | _ => dflt

/-- Embeds `d.get(k, [])` narrowed to a list of strings. -/
def JVal.getStrListD (j : JVal) (k : String) : List String :=
  match j.get? k with
  | some (.arr xs) => xs.filterMap (fun v => match v with | .str s => some s | _ => none)
  | _ => []

/-- JSON encoding of an optional value. -/
def encodeOpt (f : α → JVal) : Option α → JVal
  | none => .null
  | some a => f a

/-- Embeds `ScannedItem.__dict__` under `suggestion_encoder` (fields in
dataclass order; `Path` rendered via `str`). -/
def encodeScannedItem (i : ScannedItem) : JVal :=
  .obj [("path", .str i.path),
        ("size_bytes", .num i.size_bytes),
        ("last_accessed", .num i.last_accessed),
        ("last_modified", .num i.last_modified),
        ("item_type", .str i.item_type),
        ("extra_info", .obj (i.extra_info.map (fun kv => (kv.1, JVal.str kv.2))))]

/-- Embeds `PackageInfo.__dict__` under `suggestion_encoder`. -/
def encodePackageInfo (p : PackageInfo) : JVal :=
  .obj [("name", .str p.name),
        ("version", .str p.version),
        ("size_bytes", .num p.size_bytes),
        ("description", encodeOpt JVal.str p.description),
        ("install_date", encodeOpt JVal.num p.install_date),
        ("last_used", encodeOpt JVal.num p.last_used),
        ("is_orphan", .bool p.is_orphan),
        ("is_dependency", .bool p.is_dependency),
        ("required_by", .arr (p.required_by.map JVal.str)),
        ("optional_for", .arr (p.optional_for.map JVal.str))]

/-- Embeds `DuplicateSet.__dict__` under `suggestion_encoder` (`paths` is a
list of `Path`, rendered as strings). -/
def encodeDuplicateSet (d : DuplicateSet) : JVal :=
  .obj [("file_hash", .str d.file_hash),
        ("paths", .arr (d.paths.map JVal.str)),
        ("size_bytes", .num d.size_bytes),
        ("total_size_bytes", .num d.total_size_bytes)]

/-- JSON encoding of the polymorphic `data` payload. -/
def encodeSuggData : SuggData → JVal
  | .item i => encodeScannedItem i
  | .pkg p => encodePackageInfo p
  | .pkgList ps => .arr (ps.map encodePackageInfo)
  | .dupSet d => encodeDuplicateSet d
  | .pathList ps => .arr (ps.map JVal.str)
  | .vacuumParams ts ta =>
    .obj [("target_size", encodeOpt (fun n => JVal.num n) ts),
          ("target_age", encodeOpt (fun n => JVal.num n) ta)]
  | .nothing => .null

/-- Embeds `Suggestion.__dict__` serialised by `_save_suggestions_to_file`. -/
def encodeSuggestion (s : Suggestion) : JVal :=
  .obj [("id", .str s.id),
        ("suggestion_type", .str s.suggestion_type),
        ("description", .str s.description),
        ("details", encodeOpt JVal.str s.details),
        ("estimated_size_bytes", .num s.estimated_size_bytes),
        ("confidence", .num s.confidence),
        ("rationale", .str s.rationale),
        ("data", encodeSuggData s.data)]

/-- Embeds `CoreController._save_suggestions_to_file`: the artifact contents
after a save. -/
def save_suggestions_to_file (suggestions : List Suggestion) : List JVal :=
  suggestions.map encodeSuggestion

/-- The suggestion types reconstructed as a `ScannedItem` by
`get_last_suggestions` (note `'PACMAN_CACHE_FILE'`, not the generated
`'PACMAN_CACHE'`). -/
def itemLikeLoadTypes : List String :=
  ["OLD_FILE", "LARGE_FILE", "CACHE_FILE", "LOG_FILE", "PACMAN_CACHE_FILE", "JOURNAL_LOG"]

/-- The per-record body of `CoreController.get_last_suggestions`:
`none` means the record is skipped (counted in `failed_count`).
Records produced by `_save_suggestions_to_file` are always JSON
objects with string/number fields of the shapes read here; a
non-object record would raise an uncaught `AttributeError` in the
source and is likewise mapped to `none` (no theorem below depends on
that corner). -/
def load_suggestion_record (j : JVal) : Option Suggestion :=
  match j with
  | .obj _ =>
    let data_field := j.get? "data"
    let stype := j.get? "suggestion_type"
    let stypeStr : Option String :=
      match stype with
      | some (.str s) => some s
      | _ => none
    let dataResult : Option SuggData :=
      match data_field with
      | none => some .nothing
      | some dv =>
        if dv.truthy = false then some .nothing
        else
          match dv with
          | .obj _ =>
            if stypeStr.any (fun t => itemLikeLoadTypes.contains t) then
              some (.item
                { path := match dv.get? "path" with
                    | some (.str s) => if s ≠ "" then s else "."
                    | _ => "."
                  size_bytes := dv.getIntD "size_bytes" 0
                  last_accessed := dv.getNumD "last_accessed" 0
                  last_modified := dv.getNumD "last_modified" 0
                  item_type := dv.getStrD "item_type" "unknown"
                  extra_info := match dv.get? "extra_info" with
                    | some (.obj fs) => fs.filterMap (fun kv =>
                        match kv.2 with | .str s => some (kv.1, s) | _ => none)
                    | _ => [] })
            else if stypeStr = some "ORPHAN_PACKAGE" then
              some (.pkg
                { name := dv.getStrD "name" "unknown"
                  version := dv.getStrD "version" "unknown"
                  size_bytes := dv.getIntD "size_bytes" 0
                  description := dv.getStr? "description"
                  install_date := dv.getNum? "install_date"
                  last_used := none
                  is_orphan := dv.getBoolD "is_orphan" true
                  is_dependency := dv.getBoolD "is_dependency" false
                  required_by := dv.getStrListD "required_by"
                  optional_for := dv.getStrListD "optional_for" })
            else if stypeStr = some "DUPLICATE_FILES" then
              -- `DuplicateSet(...)` is called without the required
              -- `total_size_bytes` argument: `TypeError`, record skipped
              none
            else some .nothing
          | _ =>
            -- data present but not a dict: warned about and skipped
            none
    match dataResult with
    | none => none
    | some rdata =>
      some { id := j.getStrD "id" "unknown"
             suggestion_type :=
               match stype with
               | some v => if v.truthy then
                             (match v with | .str s => s | _ => "unknown")
                           else "unknown"
               | none => "unknown"
             description := j.getStrD "description" ""
             details := j.getStr? "details"
             estimated_size_bytes := j.getIntD "estimated_size_bytes" 0
             confidence := j.getNumD "confidence" 0
             rationale := ""
             data := rdata }
  | _ => none

/-- Embeds `CoreController.get_last_suggestions`: load every record,
individually skipping the ones that fail to deserialise. -/
def get_last_suggestions (artifact : List JVal) : List Suggestion :=
  artifact.filterMap load_suggestion_record

/-! ## `db/database.py`: the Item Store

The SQLite engine itself is external: each batch write / query takes
the engine outcome (`none` = SQL success, `some e` = a `sqlite3.Error`
raised inside the transaction, which `with self.conn` rolls back) as an
explicit argument. -/

/-- A `sqlite3.Error` (the subclass is irrelevant to control flow). -/
inductive SqlError where
  | busy
  | ioFailure
deriving DecidableEq, Repr

/-- A Python exception escaping an embedded function. -/
inductive PyError where
  | attributeError
  | nameError
  | sqliteError (e : SqlError)
deriving DecidableEq, Repr

/-- A row of the `action_feedback` table (its six value columns). -/
structure FeedbackRow where
  suggestion_id : String
  suggestion_type : String
  item_details : String
  action_taken : String
  timestamp : ℚ
  user_comment : Option String
deriving DecidableEq, Repr

/-- The Item Store state: connection flag plus the three row sets the
embedded operations touch. -/
structure Store where
  conn : Bool
  items : List ScannedItem
  packages : List PackageInfo
  feedback : List FeedbackRow
deriving DecidableEq, Repr

/-- Embeds `INSERT OR REPLACE` keyed by `path`. -/
def upsertByPath (rows : List ScannedItem) (item : ScannedItem) : List ScannedItem :=
  if rows.any (fun r => r.path = item.path) then
    rows.map (fun r => if r.path = item.path then item else r)
  else rows ++ [item]

/-- Embeds `INSERT OR REPLACE` keyed by `name`. -/
def upsertByName (rows : List PackageInfo) (pkg : PackageInfo) : List PackageInfo :=
  if rows.any (fun r => r.name = pkg.name) then
    rows.map (fun r => if r.name = pkg.name then pkg else r)
  else rows ++ [pkg]

/-- Embeds `DatabaseManager.add_scanned_items_batch`: on engine failure the
`sqlite3.Error` is caught and logged — the call still returns normally
(`Except.ok`) and the rolled-back transaction leaves the store
unchanged. -/
def add_scanned_items_batch (db : Store) (items : List ScannedItem) (_scan_id : Int)
    (engine : Option SqlError) : Store × Except PyError Unit :=
  if db.conn = false then (db, .ok ())
  else
    match engine with
    | some _ => (db, .ok ())
    | none => ({ db with items := items.foldl upsertByPath db.items }, .ok ())

/-- Embeds `DatabaseManager.add_packages_batch` (same failure handling). -/
def add_packages_batch (db : Store) (packages : List PackageInfo) (_scan_id : Int)
    (engine : Option SqlError) : Store × Except PyError Unit :=
  if db.conn = false then (db, .ok ())
  else
    match engine with
    | some _ => (db, .ok ())
    | none => ({ db with packages := packages.foldl upsertByName db.packages }, .ok ())

/-- Embeds `DatabaseManager.get_scanned_items`: a failing query (caught inside
`execute_sql`, which then returns `None`) degrades to `[]`. -/
def get_scanned_items (db : Store) (item_type : Option String) (min_size : Option Int)
    (engine : Option SqlError) : List ScannedItem :=
  if db.conn = false then []
  else
    match engine with
    | some _ => []
    | none =>
      db.items.filter (fun i =>
        (match item_type with | some t => decide (i.item_type = t) | none => true) &&
        (match min_size with | some m => decide (m ≤ i.size_bytes) | none => true))

/-- Embeds `DatabaseManager.delete_scanned_item`. -/
def delete_scanned_item (db : Store) (path : String) : Store :=
  { db with items := db.items.filter (fun i => i.path ≠ path) }

/-- Embeds `DatabaseManager.delete_package`. -/
def delete_package (db : Store) (name : String) : Store :=
  { db with packages := db.packages.filter (fun p => p.name ≠ name) }

/-- Attribute lookup on a `models.ActionFeedback` instance: exactly the
four dataclass fields exist; `getattr` on any other name raises
`AttributeError`. -/
def ActionFeedback.attr : ActionFeedback → String → Except PyError JVal
  | fb, "suggestion_id" => .ok (.str fb.suggestion_id)
  | fb, "action_taken" => .ok (.str fb.action_taken)
  | fb, "timestamp" => .ok (.num fb.timestamp)
  | fb, "user_comment" => .ok (encodeOpt JVal.str fb.user_comment)
  | _, _ => .error .attributeError

/-- Narrow a `JVal` to the string stored in a text column. -/
def jvalText : JVal → String
  | .str s => s
  | _ => ""

/-- Embeds `DatabaseManager.add_feedback`: the SQL parameter tuple reads
`feedback.suggestion_type` and `feedback.item_details`, which
`models.ActionFeedback` does not define, so the tuple construction
raises before any SQL executes. -/
def add_feedback (db : Store) (feedback : ActionFeedback) : Except PyError Store :=
  if db.conn = false then .ok db
  else do
    let sid ← feedback.attr "suggestion_id"
    let stype ← feedback.attr "suggestion_type"
    let idetails ← feedback.attr "item_details"
    let act ← feedback.attr "action_taken"
    let ts ← feedback.attr "timestamp"
    let ucomment ← feedback.attr "user_comment"
    .ok { db with feedback := db.feedback ++
      [{ suggestion_id := jvalText sid
         suggestion_type := jvalText stype
         item_details := jvalText idetails
         action_taken := jvalText act
         timestamp := match ts with | .num q => q | _ => 0
         user_comment := match ucomment with | .null => none | v => some (jvalText v) }] }

/-! ## `modules/learning.py` -/

/-- Embeds `LearningModule.record_feedback`: builds an `ActionFeedback` (with
the commented-out `suggestion_type` / `item_details` arguments absent),
calls `add_feedback`, and swallows any exception. -/
def record_feedback (learning_enabled : Bool) (db : Store) (suggestion : Suggestion)
    (action_taken : String) (user_comment : Option String) (now : ℚ) : Store :=
  if learning_enabled = false then db
  else
    let feedback : ActionFeedback :=
      { suggestion_id := suggestion.id
        action_taken := action_taken
        timestamp := now
        user_comment := user_comment }
    match add_feedback db feedback with
    | .ok db' => db'
    | .error _ => db

/-! ## `modules/execution.py`: the execution handler -/

/-- The observed `subprocess.CompletedProcess` of an external command. -/
structure CmdResult where
  returncode : Int
  stdout : String
  stderr : String
deriving DecidableEq, Repr

/-- The mutable world a handler acts on: existing filesystem paths, the
Item Store, and the log of spawned external commands. -/
structure World where
  fs : List String
  store : Store
  cmds : List (List String)
deriving DecidableEq, Repr

/-- Embeds `helpers.run_command`: spawn an external command and observe its
result through the oracle. -/
def runCmd (oracle : List String → CmdResult) (command : List String) (w : World) :
    CmdResult × World :=
  (oracle command, { w with cmds := w.cmds ++ [command] })

/-- Embeds `ExecutionHandler._safe_delete`. -/
def safe_delete (use_trash : Bool) (oracle : List String → CmdResult)
    (path : String) (dry_run : Bool) (w : World) : (Bool × String) × World :=
  if w.fs.contains path = false then
    ((true, "Path " ++ path ++ " already gone."), w)
  else if dry_run then
    ((true, "Simulated " ++ (if use_trash then "trash" else "delete") ++ " of " ++ path), w)
  else if use_trash then
    let (r, w') := runCmd oracle ["trash-put", path] w
    if r.returncode = 0 then
      ((true, "Moved " ++ path ++ " to trash."), { w' with fs := w'.fs.filter (· ≠ path) })
    else
      ((false, "Failed to move " ++ path ++ " to trash: " ++ r.stderr), w')
  else
    ((true, "Permanently deleted " ++ path), { w with fs := w.fs.filter (· ≠ path) })

/-- Embeds `ExecutionHandler._handle_old_file` (also used verbatim by
`_handle_large_file`). -/
def handle_old_file (use_trash : Bool) (oracle : List String → CmdResult)
    (suggestion : Suggestion) (dry_run : Bool) (w : World) (invalidMsg : String) :
    ActionResult × World :=
  match suggestion.data with
  | .item item =>
    let ((success, message), w') := safe_delete use_trash oracle item.path dry_run w
    let bytes_freed := if success then item.size_bytes else 0
    let w'' := if success ∧ dry_run = false then
                 { w' with store := delete_scanned_item w'.store item.path }
               else w'
    (⟨suggestion, success, message, bytes_freed, dry_run⟩, w'')
  | _ => (⟨suggestion, false, invalidMsg, 0, dry_run⟩, w)

/-- Embeds `ExecutionHandler._handle_orphan_package`. -/
def handle_orphan_package (oracle : List String → CmdResult)
    (suggestion : Suggestion) (dry_run : Bool) (w : World) : ActionResult × World :=
  match suggestion.data with
  | .pkgList orphans =>
    if orphans = [] then
      (⟨suggestion, true, "No orphan packages specified.", 0, dry_run⟩, w)
    else
      let package_names := orphans.map (·.name)
      let command := ["sudo", "pacman", "-Rns"] ++ package_names
      if dry_run then
        (⟨suggestion, true,
          "Simulated removal of " ++ toString package_names.length ++ " orphans.",
          suggestion.estimated_size_bytes, true⟩, w)
      else
        let (r, w') := runCmd oracle command w
        if r.returncode = 0 then
          let w'' := { w' with store := package_names.foldl delete_package w'.store }
          (⟨suggestion, true,
            "Successfully removed " ++ toString package_names.length ++ " orphan packages.",
            suggestion.estimated_size_bytes, false⟩, w'')
        else
          let error_msg := if r.stderr ≠ "" then pyStrip r.stderr
                           else "pacman exited with code " ++ toString r.returncode
          (⟨suggestion, false, "Failed to remove orphans: " ++ error_msg, 0, false⟩, w')
  | _ => (⟨suggestion, false, "Invalid data type for ORPHAN_PACKAGE", 0, dry_run⟩, w)

/-- One iteration of `_handle_duplicate_set`'s removal loop over
`(world, success_count, total_bytes_freed, messages)`. -/
def dupDeleteStep (use_trash : Bool) (oracle : List String → CmdResult)
    (dup_set : DuplicateSet) (dry_run : Bool)
    (acc : World × Nat × Int × List String) (path : String) :
    World × Nat × Int × List String :=
  let (w, success_count, bytes, messages) := acc
  let ((success, message), w') := safe_delete use_trash oracle path dry_run w
  if success then
    let w'' := if dry_run = false then
                 { w' with store := delete_scanned_item w'.store path }
               else w'
    (w'', success_count + 1, bytes + dup_set.size_bytes, messages ++ [message])
  else (w', success_count, bytes, messages ++ [message])

/-- Embeds `ExecutionHandler._handle_duplicate_set`. -/
def handle_duplicate_set (use_trash : Bool) (oracle : List String → CmdResult)
    (suggestion : Suggestion) (dry_run : Bool) (w : World) : ActionResult × World :=
  match suggestion.data with
  | .dupSet dup_set =>
    if dup_set.paths.length < 2 then
      (⟨suggestion, false, "Invalid data type or insufficient files for DUPLICATE_SET",
        0, dry_run⟩, w)
    else
      let paths_to_keep := dup_set.paths.take 1
      let paths_to_remove := dup_set.paths.drop 1
      let (w', success_count, total_bytes_freed, messages) :=
        paths_to_remove.foldl (dupDeleteStep use_trash oracle dup_set dry_run) (w, 0, 0, [])
      let overall_success := success_count = paths_to_remove.length
      let final_message :=
        "Removed " ++ toString success_count ++ "/" ++ toString paths_to_remove.length ++
        " duplicate files. Kept: " ++ pathName (paths_to_keep.getD 0 "") ++ ". " ++
        String.intercalate "; " messages
      (⟨suggestion, overall_success, final_message, total_bytes_freed, dry_run⟩, w')
  | _ =>
    (⟨suggestion, false, "Invalid data type or insufficient files for DUPLICATE_SET",
      0, dry_run⟩, w)

/-- Embeds `ExecutionHandler._handle_pacman_cache`. -/
def handle_pacman_cache (oracle : List String → CmdResult)
    (suggestion : Suggestion) (dry_run : Bool) (w : World) : ActionResult × World :=
  match suggestion.data with
  | .pathList paths_to_remove =>
    if paths_to_remove = [] then
      (⟨suggestion, true, "No pacman cache files specified for removal.", 0, dry_run⟩, w)
    else
      let command := ["sudo", "rm", "-f"] ++ paths_to_remove
      if dry_run then
        (⟨suggestion, true,
          "Simulated removal of " ++ toString paths_to_remove.length ++ " cache files.",
          suggestion.estimated_size_bytes, true⟩, w)
      else
        let (r, w') := runCmd oracle command w
        if r.returncode = 0 then
          let w'' := { w' with
                       fs := w'.fs.filter (fun p => paths_to_remove.contains p = false)
                       store := paths_to_remove.foldl delete_scanned_item w'.store }
          (⟨suggestion, true,
            "Successfully removed " ++ toString paths_to_remove.length ++
            " pacman cache files.",
            suggestion.estimated_size_bytes, false⟩, w'')
        else
          let error_msg := if r.stderr ≠ "" then pyStrip r.stderr
                           else "sudo rm exited with code " ++ toString r.returncode
          (⟨suggestion, false, "Failed to remove cache files: " ++ error_msg, 0, false⟩, w')
  | _ => (⟨suggestion, false, "Invalid data type for PACMAN_CACHE", 0, dry_run⟩, w)

/-- Leftmost match of `freed\s+([\d.]+[BKMGT])` in `journalctl` output
(the captured group). -/
def searchFreedSize (s : String) : Option String :=
  let cs := s.toList
  (List.range cs.length).findSome? (fun i =>
    let sub := cs.drop i
    if sub.take 5 = "freed".toList then
      let rest := sub.drop 5
      let ws := rest.takeWhile (·.isWhitespace)
      if ws = [] then none
      else
        let r2 := rest.drop ws.length
        let run := r2.takeWhile (fun c => c.isDigit ∨ c = '.')
        if run = [] then none
        else
          match r2.drop run.length with
          | u :: _ => if "BKMGT".toList.contains u then some (String.mk (run ++ [u])) else none
          | [] => none
    else none)

/-- Embeds `ExecutionHandler._handle_journal_log`. -/
def handle_journal_log (oracle : List String → CmdResult)
    (suggestion : Suggestion) (dry_run : Bool) (w : World) : ActionResult × World :=
  match suggestion.data with
  | .vacuumParams target_size target_age =>
    match target_size with
    | some n =>
      let command := ["sudo", "journalctl", "--vacuum-size", toString n]
      if dry_run then
        (⟨suggestion, true, "Simulated journal vacuum.", 0, true⟩, w)
      else
        let (r, w') := runCmd oracle command w
        if r.returncode = 0 then
          let bytes_freed : Int :=
            match searchFreedSize r.stdout with
            | some g => (parse_size g).getD 0
            | none => 0
          (⟨suggestion, true,
            "Successfully vacuumed journal logs. Freed approx " ++
            human_readable_size bytes_freed ++ ".", bytes_freed, false⟩, w')
        else
          let error_msg := if r.stderr ≠ "" then pyStrip r.stderr
                           else "journalctl exited with code " ++ toString r.returncode
          (⟨suggestion, false, "Failed to vacuum journal: " ++ error_msg, 0, false⟩, w')
    | none =>
      match target_age with
      | some _ =>
        (⟨suggestion, false, "Journal vacuuming by age not yet supported.", 0, dry_run⟩, w)
      | none =>
        (⟨suggestion, false, "No target size or age specified for journal vacuum.",
          0, dry_run⟩, w)
  | _ => (⟨suggestion, false, "Invalid data type for JOURNAL_LOG", 0, dry_run⟩, w)

/-- Embeds `ExecutionHandler.execute_suggestion`: dispatch on
`_handle_{suggestion_type.lower()}`; an unknown type is a FAILED
result, not a crash. -/
def execute_suggestion (use_trash : Bool) (oracle : List String → CmdResult)
    (suggestion : Suggestion) (dry_run : Bool) (w : World) : ActionResult × World :=
  let t := pyLower suggestion.suggestion_type
  if t = "old_file" then
    handle_old_file use_trash oracle suggestion dry_run w "Invalid data type for OLD_FILE"
  else if t = "large_file" then
    handle_old_file use_trash oracle suggestion dry_run w "Invalid data type for OLD_FILE"
  else if t = "orphan_package" then
    handle_orphan_package oracle suggestion dry_run w
  else if t = "duplicate_set" then
    handle_duplicate_set use_trash oracle suggestion dry_run w
  else if t = "pacman_cache" then
    handle_pacman_cache oracle suggestion dry_run w
  else if t = "journal_log" then
    handle_journal_log oracle suggestion dry_run w
  else
    (⟨suggestion, false, "Unsupported suggestion type: " ++ suggestion.suggestion_type,
      0, dry_run⟩, w)

/-! ## `core/controller.py`: `apply` -/

/-- The process-level collaborators of an `apply` invocation. -/
structure ApplyEnv where
  oracle : List String → CmdResult
  use_trash : Bool
  learning_enabled : Bool
  now : ℚ

/-- Insert into a Python dict modelled as an insertion-ordered
association list (later assignments overwrite). -/
def dictInsert (m : List (String × Suggestion)) (k : String) (v : Suggestion) :
    List (String × Suggestion) :=
  if m.any (fun kv => kv.1 = k) then
    m.map (fun kv => if kv.1 = k then (k, v) else kv)
  else m ++ [(k, v)]

/-- Embeds `{s.id: s for s in suggestions_from_file}`. -/
def buildSuggestionMap (l : List Suggestion) : List (String × Suggestion) :=
  l.foldl (fun m s => dictInsert m s.id s) []

/-- Dict lookup. -/
def dictGet? (m : List (String × Suggestion)) (k : String) : Option Suggestion :=
  match m.find? (fun kv => kv.1 = k) with
  | some kv => some kv.2
  | none => none

/-- One iteration of the `apply` loop: execute the suggestion, append
its `ActionResult`, and (non-dry runs only) record feedback for the
matching original suggestion. -/
def applyStep (env : ApplyEnv) (suggestions_from_file : List Suggestion) (dry_run : Bool)
    (acc : List ActionResult × World) (suggestion : Suggestion) :
    List ActionResult × World :=
  let (results, w) := acc
  let (action_result, w') := execute_suggestion env.use_trash env.oracle suggestion dry_run w
  let w'' :=
    if dry_run = false then
      let action_taken := if action_result.success then "APPROVED" else "EXECUTION_FAILED"
      match suggestions_from_file.find? (fun s => s.id = suggestion.id) with
      | some original =>
        { w' with store := record_feedback env.learning_enabled w'.store original
                             action_taken none env.now }
      | none => w'
    else w'
  (results ++ [action_result], w'')

/-- Embeds `CoreController.apply`: load the artifact, select suggestions (all,
or the ones whose ids match — unknown ids are only warned about),
execute each, and record feedback for non-dry runs. -/
def apply (env : ApplyEnv) (artifact : List JVal) (suggestion_ids : Option (List String))
    (dry_run : Bool) (w : World) : List ActionResult × World :=
  let suggestions_from_file := get_last_suggestions artifact
  if suggestions_from_file = [] then ([], w)
  else
    let suggestions_to_apply :=
      match suggestion_ids with
      | some ids =>
        if ids ≠ [] then
          let suggestion_map := buildSuggestionMap suggestions_from_file
          ids.filterMap (fun sugg_id => dictGet? suggestion_map sugg_id)
        else suggestions_from_file
      | none => suggestions_from_file
    if suggestions_to_apply = [] then ([], w)
    else
      suggestions_to_apply.foldl (applyStep env suggestions_from_file dry_run) ([], w)

/-! ## `modules/collection.py`: journal collection and the
orchestration level of `collect_all` / `controller.scan` -/

/-- Leftmost match of `take up\s+([\d.]+[BKMGT])\s+on disk` in
`journalctl --disk-usage` output (the captured group). -/
def searchTakeUpSize (s : String) : Option String :=
  let cs := s.toList
  (List.range cs.length).findSome? (fun i =>
    let sub := cs.drop i
    if sub.take 7 = "take up".toList then
      let rest := sub.drop 7
      let ws := rest.takeWhile (·.isWhitespace)
      if ws = [] then none
      else
        let r2 := rest.drop ws.length
        let run := r2.takeWhile (fun c => c.isDigit ∨ c = '.')
        if run = [] then none
        else
          match r2.drop run.length with
          | u :: tail =>
            if "BKMGT".toList.contains u then
              let ws2 := tail.takeWhile (·.isWhitespace)
              if ws2 ≠ [] ∧ (tail.drop ws2.length).take 7 = "on disk".toList then
                some (String.mk (run ++ [u]))
              else none
            else none
          | [] => none
    else none)

/-- The environment `_collect_journal_info` observes. -/
structure JournalEnv where
  persistent_dir : Bool
  volatile_dir : Bool
  disk_usage : CmdResult
  dir_size_sum : Except Unit Int
  dir_stat : Option (ℚ × ℚ)

/-- The final `yield` of `_collect_journal_info`.  `matchVar` is the
Python local `match`: it is only bound on the `journalctl` success
branch, and evaluating `extra_info` with it unbound raises
`NameError`. -/
def journalYield (journal_path : String) (matchVar : Option Bool) (total_size : Int)
    (env : JournalEnv) : Except PyError (List ScannedItem) :=
  if 0 ≤ total_size then
    match env.dir_stat with
    | none => .ok []
    | some (atime, mtime) =>
      match matchVar with
      | none => .error .nameError
      | some hasMatch =>
        .ok [{ path := journal_path
               size_bytes := total_size
               last_accessed := atime
               last_modified := mtime
               item_type := "journal_log"
               extra_info := [("source", if hasMatch then "journalctl" else "scan")] }]
  else .ok []

/-- Embeds `DataCollector._collect_journal_info`. -/
def collect_journal_info (env : JournalEnv) : Except PyError (List ScannedItem) :=
  let journal_path? : Option String :=
    if env.persistent_dir then some "/var/log/journal"
    else if env.volatile_dir then some "/run/log/journal"
    else none
  match journal_path? with
  | none => .ok []
  | some journal_path =>
    if env.disk_usage.returncode = 0 ∧ env.disk_usage.stdout ≠ "" then
      let m := searchTakeUpSize env.disk_usage.stdout
      let total_size : Int :=
        match m with
        | some g => (parse_size g).getD 0
        | none => 0
      journalYield journal_path (some m.isSome) total_size env
    else
      let total_size : Int :=
        match env.dir_size_sum with
        | .ok n => n
        | .error _ => -1
      journalYield journal_path none total_size env

/-- The configuration switches `collect_all` consults. -/
structure CollectConfig where
  scan_paths : List String
  clean_pacman_cache : Bool
  clean_journal : Bool
  duplicates_enabled : Bool
deriving DecidableEq, Repr

/-- Observable effects of one `collect_all` call: the roots handed to
the filesystem walk, and which system-wide sub-collections ran. -/
structure CollectEffects where
  walked_roots : List String
  packages_queried : Bool
  pacman_cache_enumerated : Bool
  journal_estimated : Bool
deriving DecidableEq, Repr

/-- Embeds `DataCollector.collect_all` at the orchestration level: a valid
`target_directory` makes the scan targeted (walk only it, skip the
system-wide sub-collections); an invalid one aborts the collection. -/
def collect_all_effects (cfg : CollectConfig) (is_dir : String → Bool)
    (target_directory : Option String) : CollectEffects :=
  let general : CollectEffects :=
    { walked_roots := cfg.scan_paths
      packages_queried := true
      pacman_cache_enumerated := cfg.clean_pacman_cache
      journal_estimated := cfg.clean_journal }
  match target_directory with
  | some d =>
    if d = "" then general
    else if is_dir d then
      { walked_roots := [d]
        packages_queried := false
        pacman_cache_enumerated := false
        journal_estimated := false }
    else
      { walked_roots := []
        packages_queried := false
        pacman_cache_enumerated := false
        journal_estimated := false }
  | none => general

/-- Embeds `CoreController.scan`: its first `collect_all` call omits
`target_directory`; the call carrying the directory sits in the
duplicated `except` block and only runs if the first call raises. -/
def scan (cfg : CollectConfig) (is_dir : String → Bool) (first_collect_raises : Bool)
    (_force : Bool) (directory : Option String) : CollectEffects :=
  if first_collect_raises then collect_all_effects cfg is_dir directory
  else collect_all_effects cfg is_dir none

/-! ## Concrete example values used by the theorems -/

/-- An orphan package. -/
def pkgFoo : PackageInfo :=
  { name := "foo", version := "1.0", size_bytes := 100, description := none,
    install_date := none, last_used := none, is_orphan := true, is_dependency := false,
    required_by := [], optional_for := [] }

/-- A scanned file last accessed at `t = 998` (2 seconds before the
example clock `now = 1000`). -/
def fOld : ScannedItem :=
  { path := "/tmp/old.txt", size_bytes := 10, last_accessed := 998, last_modified := 998,
    item_type := "file", extra_info := [] }

/-- A stand-in for the external `time.ctime` formatter. -/
def ctime0 : ℚ → String := fun _ => "Thu Jan  1 00:16:38 1970"

/-- Two cached versions of the same package. -/
def cacheItemA : ScannedItem :=
  { path := "/var/cache/pacman/pkg/pkg-1.0-1-x86_64.pkg.tar.zst", size_bytes := 500,
    last_accessed := 0, last_modified := 0, item_type := "pacman_cache", extra_info := [] }

def cacheItemB : ScannedItem :=
  { path := "/var/cache/pacman/pkg/pkg-1.1-1-x86_64.pkg.tar.zst", size_bytes := 600,
    last_accessed := 0, last_modified := 0, item_type := "pacman_cache", extra_info := [] }

/-- The collected journal item (total size 5000 bytes). -/
def journalItem : ScannedItem :=
  { path := "/var/log/journal", size_bytes := 5000, last_accessed := 1, last_modified := 2,
    item_type := "journal_log", extra_info := [] }

/-- A two-member duplicate set. -/
def dupSetEx : DuplicateSet :=
  { file_hash := "abcdef0123456789", paths := ["/a/x.txt", "/b/x.txt"],
    size_bytes := 2048, total_size_bytes := 4096 }

/-- A connected, empty Item Store. -/
def store1 : Store := { conn := true, items := [], packages := [], feedback := [] }

/-- An `ActionFeedback` instance as `record_feedback` builds it. -/
def fb1 : ActionFeedback :=
  { suggestion_id := "5a3fd32ab7", action_taken := "APPROVED", timestamp := 1000,
    user_comment := none }

/-- An oracle under which every external command reports success. -/
def oracle0 : List String → CmdResult := fun _ => { returncode := 0, stdout := "", stderr := "" }

/-- An `apply` environment (learning enabled, trash disabled). -/
def env0 : ApplyEnv := { oracle := oracle0, use_trash := false, learning_enabled := true, now := 1000 }

/-- An initial world with an empty filesystem over `store1`. -/
def w0 : World := { fs := [], store := store1, cmds := [] }

/-- A scan configuration with every system-wide collection enabled. -/
def cfgC4 : CollectConfig :=
  { scan_paths := ["/home/user"], clean_pacman_cache := true, clean_journal := true,
    duplicates_enabled := true }

/-- A filesystem on which every candidate path is a directory. -/
def isDirTrue : String → Bool := fun _ => true

/-- A journal environment where `journalctl --disk-usage` fails and the
manual directory walk succeeds with a 5000-byte total. -/
def jenvFail : JournalEnv :=
  { persistent_dir := true, volatile_dir := false,
    disk_usage := { returncode := 1, stdout := "", stderr := "permission denied" },
    dir_size_sum := .ok 5000, dir_stat := some (1, 2) }

/-! ## Claim theorems -/

/-- C1: saving the generated suggestion list and loading it back does
*not* reconstruct an equivalent `data` payload for every suggestion
type.  Evaluating `get_last_suggestions ∘ _save_suggestions_to_file`
on generated suggestions: an `ORPHAN_PACKAGE` record (list-valued
`data`) and a `PACMAN_CACHE` record (list of paths) are skipped
entirely on load; a `JOURNAL_LOG` record's parameter map is coerced
into a default `ScannedItem`; a `DUPLICATE_SET` record (the loader
only knows `'DUPLICATE_FILES'`) loses its payload. -/
theorem c1_artifact_round_trip_broken :
    get_last_suggestions (save_suggestions_to_file
      (generate_orphan_package_suggestions [pkgFoo])) = [] ∧
    get_last_suggestions (save_suggestions_to_file
      (generate_pacman_cache_suggestions 1 [cacheItemA, cacheItemB])) = [] ∧
    (get_last_suggestions (save_suggestions_to_file
      (generate_journal_log_suggestions (some 1024) none [journalItem]))).map (·.data) =
      [SuggData.item { path := ".", size_bytes := 0, last_accessed := 0, last_modified := 0,
                       item_type := "unknown", extra_info := [] }] ∧
    (get_last_suggestions (save_suggestions_to_file
      (generate_duplicate_set_suggestions [dupSetEx]))).map (·.data) =
      [SuggData.nothing] := by
  refine ⟨?_, ?_, ?_, ?_⟩ <;> with_unfolding_all decide

/-- C4: `CoreController.scan` given a target directory.  Its `try`
block calls `collect_all` *without* the directory, so (whenever that
first call returns normally) the configured roots are walked and all
system-wide sub-collections run, contradicting the claim.  The second
conjunct shows `collect_all` itself, when actually handed the
directory, does walk only it and suppresses the package query, cache
enumeration and journal estimation — the claimed behaviour lives one
layer down and is unreachable on the normal path. -/
theorem c4_scan_ignores_target_directory :
    scan cfgC4 isDirTrue false false (some "/tmp/project") =
      { walked_roots := ["/home/user"], packages_queried := true,
        pacman_cache_enumerated := true, journal_estimated := true } ∧
    collect_all_effects cfgC4 isDirTrue (some "/tmp/project") =
      { walked_roots := ["/tmp/project"], packages_queried := false,
        pacman_cache_enumerated := false, journal_estimated := false } := by
  exact ⟨rfl, rfl⟩

/-- C6 counterexample: a failing batch upsert (engine raises
`sqlite3.Error` inside the transaction) does *not* propagate — both
batch writers catch, log, and return normally with the store
unchanged. -/
theorem c6_batch_error_swallowed :
    add_scanned_items_batch store1 [fOld] 1 (some SqlError.busy) =
      (store1, Except.ok ()) ∧
    add_packages_batch store1 [pkgFoo] 1 (some SqlError.busy) =
      (store1, Except.ok ()) := by
  exact ⟨rfl, rfl⟩

/-- C6 amended: batch-write failures are caught and logged exactly like
query failures — the call returns normally (`Except.ok`) with the
store unchanged (rolled-back transaction), and a failing query
degrades to an empty result. -/
theorem c6_error_handling_amended :
    (∀ (db : Store) (items : List ScannedItem) (sid : Int) (e : SqlError),
      add_scanned_items_batch db items sid (some e) = (db, Except.ok ())) ∧
    (∀ (db : Store) (pkgs : List PackageInfo) (sid : Int) (e : SqlError),
      add_packages_batch db pkgs sid (some e) = (db, Except.ok ())) ∧
    (∀ (db : Store) (tf : Option String) (ms : Option Int) (e : SqlError),
      get_scanned_items db tf ms (some e) = []) := by
  refine ⟨?_, ?_, ?_⟩
  · intro db items sid e
    cases h : db.conn <;> simp [add_scanned_items_batch, h]
  · intro db pkgs sid e
    cases h : db.conn <;> simp [add_packages_batch, h]
  · intro db tf ms e
    cases h : db.conn <;> simp [get_scanned_items, h]

/-- C7: when `journalctl --disk-usage` fails, the manual recursive sum
succeeds (5000 bytes here), but `_collect_journal_info` raises
`NameError` at the `yield` — the local `match` is only bound on the
success branch — so *no* journal-log item is produced, contradicting
the claim (and the collector's own fallback intent). -/
theorem c7_journal_fallback_raises :
    jenvFail.disk_usage.returncode = 1 ∧
    jenvFail.dir_size_sum = Except.ok 5000 ∧
    collect_journal_info jenvFail = Except.error PyError.nameError := by
  exact ⟨rfl, rfl, rfl⟩

/-- A file whose access time sits exactly on the cutoff
(`now = 1000`, threshold 1 s). -/
def fBoundary : ScannedItem :=
  { path := "/tmp/boundary.txt", size_bytes := 10, last_accessed := 999,
    last_modified := 999, item_type := "file", extra_info := [] }

/-- C9: the old-file rule uses strict `<`: a file whose `last_accessed`
equals `now − old_file_seconds` exactly is not classified old, and one
strictly below the cutoff is. -/
theorem c9_old_file_strict_boundary (old_file_seconds : Int) (now : ℚ)
    (files : List ScannedItem) (f : ScannedItem) (hmem : f ∈ files) :
    (f.last_accessed = now - (old_file_seconds : ℚ) →
      f ∉ find_old_files (some old_file_seconds) now files) ∧
    (f.last_accessed < now - (old_file_seconds : ℚ) →
      f ∈ find_old_files (some old_file_seconds) now files) := by
  unfold find_old_files
  constructor
  · intro heq hmem2
    rw [List.mem_filter] at hmem2
    have h2 := hmem2.2
    rw [heq] at h2
    simp at h2
  · intro hlt
    rw [List.mem_filter]
    exact ⟨hmem, by simpa using hlt⟩

/-- Witness for C9 at `now = 1000`, threshold 1 s: the file accessed at
`999` (exactly the cutoff) is not old; the file accessed at `998` is. -/
theorem c9_old_file_strict_boundary_witness :
    (fBoundary.last_accessed = 1000 - ((1 : Int) : ℚ) ∧
      fBoundary ∉ find_old_files (some 1) 1000 [fBoundary, fOld]) ∧
    (fOld.last_accessed < 1000 - ((1 : Int) : ℚ) ∧
      fOld ∈ find_old_files (some 1) 1000 [fBoundary, fOld]) := by
  have h999 : fBoundary.last_accessed = 1000 - ((1 : Int) : ℚ) := by
    with_unfolding_all decide
  have h998 : fOld.last_accessed < 1000 - ((1 : Int) : ℚ) := by
    with_unfolding_all decide
  refine ⟨⟨h999, ?_⟩, ⟨h998, ?_⟩⟩
  · exact (c9_old_file_strict_boundary 1 1000 [fBoundary, fOld] fBoundary
      (by decide)).1 h999
  · exact (c9_old_file_strict_boundary 1 1000 [fBoundary, fOld] fOld
      (by decide)).2 h998

/-- C8 counterexample: with threshold `"1s"` and a file last accessed
2 seconds ago, the file *is* classified old, but the generated OLD_FILE
suggestion's confidence is exactly `0.5`
(`age_days = int(2/86400) = 0`), not strictly greater than `0.5`. -/
theorem c8_confidence_not_above_half :
    find_old_files (some (analysisOldFileSeconds "1s")) 1000 [fOld] = [fOld] ∧
    (generate_old_file_suggestions 1000 ctime0 [fOld]).map (·.confidence) = [1/2] ∧
    ¬ ((1 : ℚ)/2 > 1/2) := by
  refine ⟨by with_unfolding_all decide, by with_unfolding_all decide, by norm_num⟩

/-- C8 amended: for any clock value, a file last accessed exactly
2 seconds ago under threshold `"1s"` is classified old and its OLD_FILE
suggestion has confidence exactly `1/2` — the lower endpoint of the
claimed open interval (so `0.5 ≤ confidence < 0.9` holds, but
`confidence > 0.5` does not). -/
theorem c8_old_two_seconds_amended (now : ℚ) (ctime : ℚ → String) :
    ({ path := "/tmp/old.txt", size_bytes := 10, last_accessed := now - 2,
       last_modified := now - 2, item_type := "file", extra_info := [] } : ScannedItem) ∈
      find_old_files (some (analysisOldFileSeconds "1s")) now
        [{ path := "/tmp/old.txt", size_bytes := 10, last_accessed := now - 2,
           last_modified := now - 2, item_type := "file", extra_info := [] }] ∧
    (generate_old_file_suggestions now ctime
        [{ path := "/tmp/old.txt", size_bytes := 10, last_accessed := now - 2,
           last_modified := now - 2, item_type := "file", extra_info := [] }]).map
      (·.confidence) = [1/2] ∧
    ((1 : ℚ)/2 ≥ 1/2 ∧ (1 : ℚ)/2 < 9/10) := by
  have hsecs : analysisOldFileSeconds "1s" = 1 := by with_unfolding_all decide
  refine ⟨?_, ?_, by norm_num⟩
  · rw [hsecs]
    unfold find_old_files
    rw [List.mem_filter]
    refine ⟨by simp, ?_⟩
    simp only [decide_eq_true_eq]
    push_cast
    linarith
  · unfold generate_old_file_suggestions
    simp only [List.map_map, List.map_cons, List.map_nil, Function.comp]
    congr 1
    have harg : now - (now - 2) = 2 := by ring
    rw [harg]
    have hage : pyInt ((2 : ℚ) / 86400) = 0 := by with_unfolding_all decide
    rw [hage]
    norm_num

/-- A default suggestion record (used only as a `getD` fallback). -/
def emptySuggestion : Suggestion :=
  { id := "", suggestion_type := "", description := "", details := none,
    estimated_size_bytes := 0, confidence := 0, rationale := "", data := .nothing }

/-- C2 counterexample: the aggregate ORPHAN_PACKAGE suggestion for the
single orphan `foo` has `details = "foo"` but its id is
`SHA-1("ORPHAN_PACKAGE" ‖ "all_orphans")[:10] = "10b51ee978"`, while
`SHA-1(type ‖ details)[:10]` would be `"7ab40d0d41"`. -/
theorem c2_id_not_sha1_of_details :
    (generate_orphan_package_suggestions [pkgFoo]).map
        (fun s => (s.suggestion_type, s.details, s.id)) =
      [(SUGGESTION_ORPHAN_PACKAGE, some "foo", "10b51ee978")] ∧
    generate_suggestion_id SUGGESTION_ORPHAN_PACKAGE "foo" = "7ab40d0d41" ∧
    ("10b51ee978" : String) ≠ "7ab40d0d41" := by
  refine ⟨by with_unfolding_all decide, by with_unfolding_all decide, by decide⟩

/-- C2 amended: every generated id is the first 10 hex characters of
`SHA-1(type ‖ key)`, where the key is the `details` string for the two
per-file types, the duplicate set's `file_hash` for DUPLICATE_SET, and
a fixed tag (`"all_orphans"` / `"older_versions"` / `"vacuum_size"`)
for the three aggregate types — independent of their `details`. -/
theorem c2_id_scheme_amended :
    (∀ (now : ℚ) (ctime : ℚ → String) (old_files : List ScannedItem) (s : Suggestion),
        s ∈ generate_old_file_suggestions now ctime old_files →
        ∃ d, s.details = some d ∧ s.id = generate_suggestion_id SUGGESTION_OLD_FILE d) ∧
    (∀ (ctime : ℚ → String) (large_files : List ScannedItem) (s : Suggestion),
        s ∈ generate_large_file_suggestions ctime large_files →
        ∃ d, s.details = some d ∧ s.id = generate_suggestion_id SUGGESTION_LARGE_FILE d) ∧
    (∀ (orphans : List PackageInfo) (s : Suggestion),
        s ∈ generate_orphan_package_suggestions orphans →
        s.id = generate_suggestion_id SUGGESTION_ORPHAN_PACKAGE "all_orphans") ∧
    (∀ (duplicate_sets : List DuplicateSet) (s : Suggestion),
        s ∈ generate_duplicate_set_suggestions duplicate_sets →
        ∃ d, s.data = SuggData.dupSet d ∧
          s.id = generate_suggestion_id SUGGESTION_DUPLICATE_SET d.file_hash) ∧
    (∀ (keep : Int) (cache_files : List ScannedItem) (s : Suggestion),
        s ∈ generate_pacman_cache_suggestions keep cache_files →
        s.id = generate_suggestion_id SUGGESTION_PACMAN_CACHE "older_versions") ∧
    (∀ (jmb jms : Option Int) (items : List ScannedItem) (s : Suggestion),
        s ∈ generate_journal_log_suggestions jmb jms items →
        s.id = generate_suggestion_id SUGGESTION_JOURNAL_LOG "vacuum_size") := by
  refine ⟨?_, ?_, ?_, ?_, ?_, ?_⟩
  · intro now ctime old_files s hs
    simp only [generate_old_file_suggestions, List.mem_map] at hs
    obtain ⟨item, _, rfl⟩ := hs
    exact ⟨item.path, rfl, rfl⟩
  · intro ctime large_files s hs
    simp only [generate_large_file_suggestions, List.mem_map] at hs
    obtain ⟨item, _, rfl⟩ := hs
    exact ⟨item.path, rfl, rfl⟩
  · intro orphans s hs
    unfold generate_orphan_package_suggestions at hs
    split at hs
    · simp at hs
    · rw [List.mem_singleton] at hs
      subst hs
      rfl
  · intro duplicate_sets s hs
    simp only [generate_duplicate_set_suggestions, List.mem_filterMap] at hs
    obtain ⟨d, _, hf⟩ := hs
    split at hf
    · exact absurd hf (by simp)
    · rw [Option.some_inj] at hf
      subst hf
      exact ⟨d, rfl, rfl⟩
  · intro keep cache_files s hs
    unfold generate_pacman_cache_suggestions at hs
    split at hs
    · simp at hs
    · dsimp only [] at hs
      split at hs
      · simp at hs
      · rw [List.mem_singleton] at hs
        subst hs
        rfl
  · intro jmb jms items s hs
    unfold generate_journal_log_suggestions at hs
    split at hs
    · simp at hs
    · dsimp only [] at hs
      split at hs
      · split at hs
        · rw [List.mem_singleton] at hs
          subst hs
          rfl
        · simp at hs
      · simp at hs

/-- Witness for C2 (amended): the concrete orphan suggestion for
`[pkgFoo]` carries the `"all_orphans"`-keyed id. -/
theorem c2_id_scheme_amended_witness :
    ∃ s, s ∈ generate_orphan_package_suggestions [pkgFoo] ∧
      s.id = generate_suggestion_id SUGGESTION_ORPHAN_PACKAGE "all_orphans" := by
  have hmem : (generate_orphan_package_suggestions [pkgFoo]).getD 0 emptySuggestion ∈
      generate_orphan_package_suggestions [pkgFoo] := by
    with_unfolding_all decide
  exact ⟨_, hmem, c2_id_scheme_amended.2.2.1 [pkgFoo] _ hmem⟩

/-! Helper lemmas: a dry run leaves the world untouched. -/

theorem safe_delete_dry_run_world (use_trash : Bool) (oracle : List String → CmdResult)
    (path : String) (w : World) :
    ∃ msg, safe_delete use_trash oracle path true w = ((true, msg), w) := by
  unfold safe_delete
  split
  · exact ⟨_, rfl⟩
  · exact ⟨_, rfl⟩

theorem dupDeleteStep_dry_run_world (use_trash : Bool) (oracle : List String → CmdResult)
    (dup_set : DuplicateSet) (acc : World × Nat × Int × List String) (path : String) :
    (dupDeleteStep use_trash oracle dup_set true acc path).1 = acc.1 := by
  obtain ⟨w, sc, b, ms⟩ := acc
  obtain ⟨msg, hmsg⟩ := safe_delete_dry_run_world use_trash oracle path w
  simp [dupDeleteStep, hmsg]

theorem dup_fold_dry_run_world (use_trash : Bool) (oracle : List String → CmdResult)
    (dup_set : DuplicateSet) :
    ∀ (paths : List String) (acc : World × Nat × Int × List String),
      (paths.foldl (dupDeleteStep use_trash oracle dup_set true) acc).1 = acc.1 := by
  intro paths
  induction paths with
  | nil => intro acc; rfl
  | cons p ps ih =>
    intro acc
    rw [List.foldl_cons, ih]
    exact dupDeleteStep_dry_run_world use_trash oracle dup_set acc p

theorem handle_old_file_dry_run_world (use_trash : Bool) (oracle : List String → CmdResult)
    (s : Suggestion) (w : World) (msg : String) :
    (handle_old_file use_trash oracle s true w msg).2 = w := by
  unfold handle_old_file
  cases s.data with
  | item i =>
    obtain ⟨m, hm⟩ := safe_delete_dry_run_world use_trash oracle i.path w
    simp [hm]
  | pkg p => rfl
  | pkgList ps => rfl
  | dupSet d => rfl
  | pathList ps => rfl
  | vacuumParams a b => rfl
  | nothing => rfl

theorem handle_orphan_package_dry_run_world (oracle : List String → CmdResult)
    (s : Suggestion) (w : World) :
    (handle_orphan_package oracle s true w).2 = w := by
  unfold handle_orphan_package
  cases s.data <;> try rfl
  rename_i ps
  by_cases h : ps = [] <;> simp [h]

theorem handle_duplicate_set_dry_run_world (use_trash : Bool)
    (oracle : List String → CmdResult) (s : Suggestion) (w : World) :
    (handle_duplicate_set use_trash oracle s true w).2 = w := by
  unfold handle_duplicate_set
  cases s.data with
  | dupSet d =>
    dsimp only []
    split
    · rfl
    · exact dup_fold_dry_run_world use_trash oracle d (d.paths.drop 1) (w, 0, 0, [])
  | item i => rfl
  | pkg p => rfl
  | pkgList ps => rfl
  | pathList ps => rfl
  | vacuumParams a b => rfl
  | nothing => rfl

theorem handle_pacman_cache_dry_run_world (oracle : List String → CmdResult)
    (s : Suggestion) (w : World) :
    (handle_pacman_cache oracle s true w).2 = w := by
  unfold handle_pacman_cache
  cases s.data <;> try rfl
  rename_i ps
  by_cases h : ps = [] <;> simp [h]

theorem handle_journal_log_dry_run_world (oracle : List String → CmdResult)
    (s : Suggestion) (w : World) :
    (handle_journal_log oracle s true w).2 = w := by
  unfold handle_journal_log
  cases s.data with
  | vacuumParams ts ta => cases ts <;> cases ta <;> rfl
  | item i => rfl
  | pkg p => rfl
  | pkgList ps => rfl
  | dupSet d => rfl
  | pathList ps => rfl
  | nothing => rfl

theorem execute_suggestion_dry_run_world (use_trash : Bool)
    (oracle : List String → CmdResult) (s : Suggestion) (w : World) :
    (execute_suggestion use_trash oracle s true w).2 = w := by
  unfold execute_suggestion
  dsimp only []
  split
  · exact handle_old_file_dry_run_world use_trash oracle s w _
  · split
    · exact handle_old_file_dry_run_world use_trash oracle s w _
    · split
      · exact handle_orphan_package_dry_run_world oracle s w
      · split
        · exact handle_duplicate_set_dry_run_world use_trash oracle s w
        · split
          · exact handle_pacman_cache_dry_run_world oracle s w
          · split
            · exact handle_journal_log_dry_run_world oracle s w
            · rfl

/-- C5: executing any suggestion with `dry_run = True` leaves the whole
world unchanged — no filesystem path is removed or trashed, no store
row is inserted or deleted, and no external command is spawned (the
command log is part of the world). -/
theorem c5_dry_run_no_mutation (use_trash : Bool) (oracle : List String → CmdResult)
    (s : Suggestion) (w : World) :
    (execute_suggestion use_trash oracle s true w).2 = w :=
  execute_suggestion_dry_run_world use_trash oracle s w

/-! Helper lemmas: nothing in an `apply` run ever touches the feedback
log (the `add_feedback` insert is unreachable). -/

theorem record_feedback_eq (learning_enabled : Bool) (db : Store) (s : Suggestion)
    (action_taken : String) (user_comment : Option String) (now : ℚ) :
    record_feedback learning_enabled db s action_taken user_comment now = db := by
  obtain ⟨conn, items, packages, feedback⟩ := db
  cases learning_enabled <;> cases conn <;> rfl

theorem delete_scanned_item_feedback (db : Store) (p : String) :
    (delete_scanned_item db p).feedback = db.feedback := rfl

theorem delete_package_feedback (db : Store) (n : String) :
    (delete_package db n).feedback = db.feedback := rfl

theorem foldl_delete_scanned_item_feedback :
    ∀ (paths : List String) (db : Store),
      (paths.foldl delete_scanned_item db).feedback = db.feedback := by
  intro paths
  induction paths with
  | nil => intro db; rfl
  | cons p ps ih => intro db; rw [List.foldl_cons, ih]; rfl

theorem foldl_delete_package_feedback :
    ∀ (names : List String) (db : Store),
      (names.foldl delete_package db).feedback = db.feedback := by
  intro names
  induction names with
  | nil => intro db; rfl
  | cons n ns ih => intro db; rw [List.foldl_cons, ih]; rfl

theorem safe_delete_store (use_trash : Bool) (oracle : List String → CmdResult)
    (path : String) (dry_run : Bool) (w : World) :
    (safe_delete use_trash oracle path dry_run w).2.store = w.store := by
  unfold safe_delete runCmd
  split
  · rfl
  · split
    · rfl
    · split
      · dsimp only []
        split <;> rfl
      · rfl

theorem dupDeleteStep_feedback (use_trash : Bool) (oracle : List String → CmdResult)
    (dup_set : DuplicateSet) (dry_run : Bool) (acc : World × Nat × Int × List String)
    (path : String) :
    (dupDeleteStep use_trash oracle dup_set dry_run acc path).1.store.feedback =
      acc.1.store.feedback := by
  obtain ⟨w, sc, b, ms⟩ := acc
  have hst := safe_delete_store use_trash oracle path dry_run w
  rcases hsd : safe_delete use_trash oracle path dry_run w with ⟨⟨succ, msg⟩, w'⟩
  rw [hsd] at hst
  simp only at hst
  unfold dupDeleteStep
  dsimp only []
  rw [hsd]
  cases succ <;> cases dry_run <;>
    simp [delete_scanned_item_feedback, hst]

theorem dup_fold_feedback (use_trash : Bool) (oracle : List String → CmdResult)
    (dup_set : DuplicateSet) (dry_run : Bool) :
    ∀ (paths : List String) (acc : World × Nat × Int × List String),
      (paths.foldl (dupDeleteStep use_trash oracle dup_set dry_run) acc).1.store.feedback =
        acc.1.store.feedback := by
  intro paths
  induction paths with
  | nil => intro acc; rfl
  | cons p ps ih =>
    intro acc
    rw [List.foldl_cons, ih]
    exact dupDeleteStep_feedback use_trash oracle dup_set dry_run acc p

theorem execute_suggestion_feedback (use_trash : Bool) (oracle : List String → CmdResult)
    (s : Suggestion) (dry_run : Bool) (w : World) :
    (execute_suggestion use_trash oracle s dry_run w).2.store.feedback =
      w.store.feedback := by
  cases dry_run
  case true => rw [execute_suggestion_dry_run_world]
  case false =>
  unfold execute_suggestion
  dsimp only []
  split
  case isTrue =>
    unfold handle_old_file
    cases s.data <;> try rfl
    rename_i item
    have hst := safe_delete_store use_trash oracle item.path false w
    rcases hsd : safe_delete use_trash oracle item.path false w with ⟨⟨succ, msg⟩, w'⟩
    rw [hsd] at hst
    simp only at hst
    dsimp only []
    rw [hsd]
    cases succ <;> simp [delete_scanned_item_feedback, hst]
  case isFalse =>
  split
  case isTrue =>
    unfold handle_old_file
    cases s.data <;> try rfl
    rename_i item
    have hst := safe_delete_store use_trash oracle item.path false w
    rcases hsd : safe_delete use_trash oracle item.path false w with ⟨⟨succ, msg⟩, w'⟩
    rw [hsd] at hst
    simp only at hst
    dsimp only []
    rw [hsd]
    cases succ <;> simp [delete_scanned_item_feedback, hst]
  case isFalse =>
  split
  case isTrue =>
    unfold handle_orphan_package runCmd
    cases s.data <;> try rfl
    rename_i ps
    by_cases h : ps = []
    · simp [h]
    · simp only [h, if_false, reduceIte, Bool.false_eq_true]
      try dsimp only []
      split
      · simp [foldl_delete_package_feedback]
      · rfl
  case isFalse =>
  split
  case isTrue =>
    unfold handle_duplicate_set
    cases s.data <;> try rfl
    rename_i d
    dsimp only []
    split
    · rfl
    · exact dup_fold_feedback use_trash oracle d false (d.paths.drop 1) (w, 0, 0, [])
  case isFalse =>
  split
  case isTrue =>
    unfold handle_pacman_cache runCmd
    cases s.data <;> try rfl
    rename_i ps
    by_cases h : ps = []
    · simp [h]
    · simp only [h, if_false, reduceIte, Bool.false_eq_true]
      try dsimp only []
      split
      · simp [foldl_delete_scanned_item_feedback]
      · rfl
  case isFalse =>
  split
  case isTrue =>
    unfold handle_journal_log runCmd
    cases s.data <;> try rfl
    rename_i ts ta
    cases ts <;> cases ta <;> try rfl
    all_goals
      try dsimp only []
      split_ifs <;> rfl
  case isFalse => rfl

theorem applyStep_feedback (env : ApplyEnv) (suggestions_from_file : List Suggestion)
    (acc : List ActionResult × World) (s : Suggestion) :
    (applyStep env suggestions_from_file false acc s).2.store.feedback =
      acc.2.store.feedback := by
  obtain ⟨results, w⟩ := acc
  have hfb := execute_suggestion_feedback env.use_trash env.oracle s false w
  rcases hex : execute_suggestion env.use_trash env.oracle s false w with ⟨ar, w'⟩
  rw [hex] at hfb
  simp only at hfb
  unfold applyStep
  dsimp only []
  rw [hex]
  dsimp only []
  cases List.find? (fun s1 => decide (s1.id = s.id)) suggestions_from_file <;>
    simp [record_feedback_eq, hfb]

theorem applyStep_fold_feedback (env : ApplyEnv) (suggestions_from_file : List Suggestion) :
    ∀ (l : List Suggestion) (acc : List ActionResult × World),
      ((l.foldl (applyStep env suggestions_from_file false) acc).2).store.feedback =
        (acc.2).store.feedback := by
  intro l
  induction l with
  | nil => intro acc; rfl
  | cons s ss ih =>
    intro acc
    rw [List.foldl_cons, ih]
    exact applyStep_feedback env suggestions_from_file acc s

/-- C3: no feedback entry is ever appended.  `add_feedback` reads
`feedback.suggestion_type` / `feedback.item_details`, attributes the
`ActionFeedback` dataclass does not define, so it raises
`AttributeError` before any SQL runs; `record_feedback` swallows the
exception, and a full non-dry-run `apply` leaves the feedback log
byte-for-byte unchanged — contradicting the claim. -/
theorem c3_feedback_never_recorded :
    (∀ (db : Store) (fb : ActionFeedback), db.conn = true →
        add_feedback db fb = Except.error PyError.attributeError) ∧
    (∀ (env : ApplyEnv) (suggestions : List Suggestion) (ids : Option (List String))
        (w : World),
      (ArchCleaner.apply env (save_suggestions_to_file suggestions)
          ids false w).2.store.feedback = w.store.feedback) := by
  constructor
  · intro db fb h
    obtain ⟨conn, items, packages, feedback⟩ := db
    subst h
    rfl
  · intro env suggestions ids w
    unfold ArchCleaner.apply
    dsimp only []
    split
    · rfl
    · split
      · rfl
      · exact applyStep_fold_feedback env _ _ ([], w)

/-- Witness for C3: the attribute error fires on a concrete connected
store and feedback record. -/
theorem c3_feedback_never_recorded_witness :
    store1.conn = true ∧ add_feedback store1 fb1 = Except.error PyError.attributeError :=
  ⟨rfl, c3_feedback_never_recorded.1 store1 fb1 rfl⟩

/-! Helper lemmas for C10: the id-keyed suggestion dictionary. -/

theorem any_congr_mem (l : List α) (p q : α → Bool) (h : ∀ a ∈ l, p a = q a) :
    l.any p = l.any q := by
  induction l with
  | nil => rfl
  | cons a as ih =>
    simp only [List.any_cons, h a (by simp)]
    rw [ih (fun b hb => h b (by simp [hb]))]

theorem dictGet?_mem (m : List (String × Suggestion)) (k : String) (s : Suggestion)
    (h : dictGet? m k = some s) : (k, s) ∈ m := by
  unfold dictGet? at h
  rcases hf : m.find? (fun kv => kv.1 = k) with _ | ⟨k', s'⟩ <;> rw [hf] at h
  · cases h
  · have hp := List.find?_some hf
    have hm := List.mem_of_find?_eq_some hf
    simp only [decide_eq_true_eq] at hp
    injection h with h2
    subst h2
    subst hp
    exact hm

theorem dictInsert_mem (m : List (String × Suggestion)) (j : String) (v : Suggestion)
    (kv : String × Suggestion) (h : kv ∈ dictInsert m j v) : kv ∈ m ∨ kv = (j, v) := by
  unfold dictInsert at h
  split at h
  · rw [List.mem_map] at h
    obtain ⟨kv', hkv', heq⟩ := h
    by_cases hj : kv'.1 = j
    · rw [if_pos hj] at heq
      right; exact heq.symm
    · rw [if_neg hj] at heq
      left; rw [← heq]; exact hkv'
  · rw [List.mem_append] at h
    rcases h with h | h
    · left; exact h
    · right; simpa using h

theorem buildSuggestionMap_pairs :
    ∀ (l : List Suggestion) (m : List (String × Suggestion)),
      (∀ kv ∈ m, kv.2.id = kv.1) →
      ∀ kv ∈ l.foldl (fun m s => dictInsert m s.id s) m, kv.2.id = kv.1 := by
  intro l
  induction l with
  | nil => intro m hm kv hkv; exact hm kv hkv
  | cons s ss ih =>
    intro m hm kv hkv
    rw [List.foldl_cons] at hkv
    refine ih (dictInsert m s.id s) ?_ kv hkv
    intro kv' hkv'
    rcases dictInsert_mem m s.id s kv' hkv' with h | h
    · exact hm kv' h
    · rw [h]

theorem buildSuggestionMap_lookup_id (l : List Suggestion) (k : String) (s : Suggestion)
    (h : dictGet? (buildSuggestionMap l) k = some s) : s.id = k := by
  have hmem := dictGet?_mem _ k s h
  exact buildSuggestionMap_pairs l [] (by simp) (k, s) hmem

theorem dictGet?_isSome_any (m : List (String × Suggestion)) (k : String) :
    (dictGet? m k).isSome = m.any (fun kv => kv.1 = k) := by
  unfold dictGet?
  rcases hf : m.find? (fun kv => kv.1 = k) with _ | kv <;> rw [hf] <;> dsimp only []
  · simp only [Option.isSome_none]
    symm
    rw [List.any_eq_false]
    rw [List.find?_eq_none] at hf
    intro kv hkv
    simpa using hf kv hkv
  · simp only [Option.isSome_some]
    symm
    rw [List.any_eq_true]
    refine ⟨kv, List.mem_of_find?_eq_some hf, ?_⟩
    simpa using List.find?_some hf

theorem dictInsert_isSome (m : List (String × Suggestion)) (j : String) (v : Suggestion)
    (k : String) :
    (dictGet? (dictInsert m j v) k).isSome =
      ((dictGet? m k).isSome || decide (j = k)) := by
  rw [dictGet?_isSome_any, dictGet?_isSome_any]
  unfold dictInsert
  split
  case isTrue h =>
    rw [List.any_map]
    have hcongr := any_congr_mem m
      ((fun kv : String × Suggestion => decide (kv.1 = k)) ∘
        fun kv => if kv.1 = j then (j, v) else kv)
      (fun kv => decide (kv.1 = k))
      (by
        intro kv _
        simp only [Function.comp]
        by_cases hj : kv.1 = j
        · simp [hj]
        · simp [hj])
    rw [hcongr]
    by_cases hjk : j = k
    · subst hjk
      have hany : m.any (fun kv => kv.1 = j) = true := h
      simp [hany]
    · simp [hjk]
  case isFalse h =>
    simp [List.any_append]

theorem buildSuggestionMap_isSome :
    ∀ (l : List Suggestion) (m : List (String × Suggestion)) (k : String),
      (dictGet? (l.foldl (fun m s => dictInsert m s.id s) m) k).isSome =
        ((dictGet? m k).isSome || l.any (fun s => s.id = k)) := by
  intro l
  induction l with
  | nil => intro m k; simp
  | cons s ss ih =>
    intro m k
    rw [List.foldl_cons, ih, dictInsert_isSome]
    simp [Bool.or_assoc]

theorem filterMap_dictGet_map_id (l : List Suggestion) :
    ∀ ids : List String,
      ((ids.filterMap (fun i => dictGet? (buildSuggestionMap l) i)).map (fun s => s.id)) =
        ids.filter (fun i => (dictGet? (buildSuggestionMap l) i).isSome) := by
  intro ids
  induction ids with
  | nil => rfl
  | cons i is ih =>
    rcases h : dictGet? (buildSuggestionMap l) i with _ | s
    · simp [List.filterMap_cons, List.filter_cons, h, ih]
    · have hid := buildSuggestionMap_lookup_id l i s h
      simp [List.filterMap_cons, List.filter_cons, h, ih, hid]

theorem execute_suggestion_result_suggestion (use_trash : Bool)
    (oracle : List String → CmdResult) (s : Suggestion) (dry_run : Bool) (w : World) :
    (execute_suggestion use_trash oracle s dry_run w).1.suggestion = s := by
  unfold execute_suggestion
  dsimp only []
  split
  case isTrue =>
    unfold handle_old_file
    cases s.data <;> rfl
  case isFalse =>
  split
  case isTrue =>
    unfold handle_old_file
    cases s.data <;> rfl
  case isFalse =>
  split
  case isTrue =>
    unfold handle_orphan_package runCmd
    cases s.data <;> try rfl
    rename_i ps
    by_cases h : ps = [] <;> cases dry_run <;>
      simp only [h, reduceIte, Bool.false_eq_true, if_true, if_false] <;>
      try rfl
    all_goals
      try dsimp only []
      split_ifs <;> rfl
  case isFalse =>
  split
  case isTrue =>
    unfold handle_duplicate_set
    cases s.data <;> try rfl
    rename_i d
    dsimp only []
    split
    · rfl
    · rcases hf : (d.paths.drop 1).foldl
          (dupDeleteStep use_trash oracle d dry_run) (w, 0, 0, []) with ⟨w', sc, tb, ms⟩
      rfl
  case isFalse =>
  split
  case isTrue =>
    unfold handle_pacman_cache runCmd
    cases s.data <;> try rfl
    rename_i ps
    by_cases h : ps = [] <;> cases dry_run <;>
      simp only [h, reduceIte, Bool.false_eq_true, if_true, if_false] <;>
      try rfl
    all_goals
      try dsimp only []
      split_ifs <;> rfl
  case isFalse =>
  split
  case isTrue =>
    unfold handle_journal_log runCmd
    cases s.data <;> try rfl
    rename_i ts ta
    cases ts <;> cases ta <;> cases dry_run <;> try rfl
    all_goals
      try dsimp only []
      split_ifs <;> rfl
  case isFalse => rfl

theorem applyStep_results (env : ApplyEnv) (suggestions_from_file : List Suggestion)
    (dry_run : Bool) (acc : List ActionResult × World) (s : Suggestion) :
    ∃ ar : ActionResult, (applyStep env suggestions_from_file dry_run acc s).1 =
      acc.1 ++ [ar] ∧ ar.suggestion = s := by
  obtain ⟨results, w⟩ := acc
  rcases hex : execute_suggestion env.use_trash env.oracle s dry_run w with ⟨ar, w'⟩
  have har := execute_suggestion_result_suggestion env.use_trash env.oracle s dry_run w
  rw [hex] at har
  refine ⟨ar, ?_, har⟩
  unfold applyStep
  dsimp only []
  rw [hex]

theorem applyStep_fold_results (env : ApplyEnv) (suggestions_from_file : List Suggestion)
    (dry_run : Bool) :
    ∀ (l : List Suggestion) (acc : List ActionResult × World),
      ((l.foldl (applyStep env suggestions_from_file dry_run) acc).1).map
          (fun r => r.suggestion.id) =
        (acc.1).map (fun r => r.suggestion.id) ++ l.map (fun s => s.id) := by
  intro l
  induction l with
  | nil => intro acc; simp
  | cons s ss ih =>
    intro acc
    rw [List.foldl_cons, ih]
    obtain ⟨ar, hacc, har⟩ := applyStep_results env suggestions_from_file dry_run acc s
    rw [hacc]
    simp [har]

/-- C10: `apply` with an explicit id list produces exactly one
`ActionResult` per id occurrence that matches a loaded suggestion, in
order; ids absent from the artifact are skipped silently with no
failure result. -/
theorem c10_unknown_ids_skipped (env : ApplyEnv) (suggestions : List Suggestion)
    (ids : List String) (dry_run : Bool) (w : World) (hids : ids ≠ []) :
    ((ArchCleaner.apply env (save_suggestions_to_file suggestions) (some ids)
        dry_run w).1).map (fun r => r.suggestion.id) =
      ids.filter (fun i =>
        (get_last_suggestions (save_suggestions_to_file suggestions)).any
          (fun s => s.id = i)) := by
  unfold ArchCleaner.apply
  dsimp only []
  have hfil : ∀ (l : List Suggestion),
      ((ids.filterMap (fun i => dictGet? (buildSuggestionMap l) i)).map (fun s => s.id))
        = ids.filter (fun i => l.any (fun s => s.id = i)) := by
    intro l
    rw [filterMap_dictGet_map_id l ids]
    apply List.filter_congr
    intro i _
    rw [show buildSuggestionMap l = l.foldl (fun m s => dictInsert m s.id s) [] from rfl]
    rw [buildSuggestionMap_isSome l [] i]
    simp [dictGet?]
  split
  case isTrue h =>
    rw [h]
    simp
  case isFalse h =>
    split
    case isTrue h2 =>
      have := hfil (get_last_suggestions (save_suggestions_to_file suggestions))
      rw [h2] at this
      simpa using this
    case isFalse h2 =>
      rw [applyStep_fold_results]
      simp only [List.map_nil, List.nil_append]
      exact hfil _

/-- Witness for C10: an artifact holding one OLD_FILE suggestion,
applied with one matching and one unknown id — only the matching id
yields a result. -/
theorem c10_unknown_ids_skipped_witness :
    (["5a3fd32ab7", "0123456789"] : List String) ≠ [] ∧
    ((ArchCleaner.apply env0
        (save_suggestions_to_file (generate_old_file_suggestions 1000 ctime0 [fOld]))
        (some ["5a3fd32ab7", "0123456789"]) true w0).1).map (fun r => r.suggestion.id) =
      (["5a3fd32ab7", "0123456789"] : List String).filter (fun i =>
        (get_last_suggestions (save_suggestions_to_file
          (generate_old_file_suggestions 1000 ctime0 [fOld]))).any (fun s => s.id = i)) :=
  ⟨by decide,
   c10_unknown_ids_skipped env0 (generate_old_file_suggestions 1000 ctime0 [fOld])
     ["5a3fd32ab7", "0123456789"] true w0 (by decide)⟩

end ArchCleaner
